import Mathlib

/-!
# Binary labelmap to closed surface conversion rule

A shallow embedding of `vtkBinaryLabelmapToClosedSurfaceConversionRule`
(SegmentationCore) and theorems about its border scan, padding and
conversion pipeline.

Conventions of the embedding:

* C `int` values are exact integers; the products of the voxel offset, which
  the source computes in `int`, go through `wrapInt32`.
* Voxel scalars are stored as the integer value each scalar denotes, in the
  x-fastest order of the VTK scalar buffer. A read outside the buffer yields 0.
* Coordinates and matrix entries are exact rationals.
* Object state (source, target, temporaries allocated with `New`, reported
  errors, filter executions) is passed explicitly in `World`.
-/

set_option autoImplicit false

namespace SlicerRT

/-! ## VTK constants and machine integers -/

/-- Scalar type code of `unsigned char` (vtkType.h). -/
def VTK_UNSIGNED_CHAR : Int := 3

/-- Scalar type code of `short` (vtkType.h). -/
def VTK_SHORT : Int := 4

/-- Scalar type code of `unsigned short` (vtkType.h). -/
def VTK_UNSIGNED_SHORT : Int := 5

/-- Scalar type code of `float` (vtkType.h). -/
def VTK_FLOAT : Int := 10

/-- Scalar type code of `double` (vtkType.h). -/
def VTK_DOUBLE : Int := 11

/-- Largest value of a 32-bit signed `int`. -/
def INT_MAX : Int := 2147483647

/-- Value of an exact integer after truncation to a 32-bit signed `int`. -/
def wrapInt32 (x : Int) : Int := (x + 2147483648) % 4294967296 - 2147483648

/-- Read of the scalar stored `off` elements after the start of the buffer. -/
def readScalar (buf : List Int) (off : Int) : Int :=
  if off < 0 then 0 else buf.getD off.toNat 0

/-- Element offset `i + j*dimensions[0] + k*dimensions[0]*dimensions[1]` added to
the scalar pointer; the products are `int` products. -/
def voxelOffset (d0 d1 : Int) (i j k : Int) : Int :=
  i + wrapInt32 (j * d0) + wrapInt32 (wrapInt32 (k * d0) * d1)

/-! ## Data model -/

/-- A point or vector of three exact coordinates. -/
structure Vec3 where
  x : ℚ
  y : ℚ
  z : ℚ
  deriving DecidableEq

/-- Row-major 4x4 matrix (`vtkMatrix4x4`). -/
structure vtkMatrix4x4 where
  m00 : ℚ
  m01 : ℚ
  m02 : ℚ
  m03 : ℚ
  m10 : ℚ
  m11 : ℚ
  m12 : ℚ
  m13 : ℚ
  m20 : ℚ
  m21 : ℚ
  m22 : ℚ
  m23 : ℚ
  m30 : ℚ
  m31 : ℚ
  m32 : ℚ
  m33 : ℚ
  deriving DecidableEq

/-- Index extent `int extent[6]`: inclusive bounds on the three axes. -/
structure Extent where
  xMin : Int
  xMax : Int
  yMin : Int
  yMax : Int
  zMin : Int
  zMax : Int
  deriving DecidableEq

/-- Direction cosines of an oriented image, `Directions[row][col]`. -/
structure Directions where
  d00 : ℚ
  d01 : ℚ
  d02 : ℚ
  d10 : ℚ
  d11 : ℚ
  d12 : ℚ
  d20 : ℚ
  d21 : ℚ
  d22 : ℚ
  deriving DecidableEq

/-- Oriented volumetric image (`vtkOrientedImageData`) with one scalar
component per voxel. -/
structure vtkOrientedImageData where
  ScalarType : Int
  Extent : Extent
  Scalars : List Int
  Origin : Vec3
  Spacing : Vec3
  Directions : Directions
  deriving DecidableEq

/-- Polygonal mesh (`vtkPolyData`): point coordinates and polygon cells, each
cell a list of point ids. -/
structure vtkPolyData where
  Points : List Vec3
  Polys : List (List Nat)
  deriving DecidableEq

/-- A data object as seen through a `vtkDataObject*`: the two classes the rule
downcasts to, and any other class. -/
inductive vtkDataObject where
  | orientedImageData (image : vtkOrientedImageData)
  | polyData (mesh : vtkPolyData)
  | otherDataObject (className : String)
  deriving DecidableEq

namespace vtkOrientedImageData

/-- `vtkImageData::GetDimensions`: extent sizes on the three axes. -/
def GetDimensions (img : vtkOrientedImageData) : Int × Int × Int :=
  (img.Extent.xMax - img.Extent.xMin + 1,
   img.Extent.yMax - img.Extent.yMin + 1,
   img.Extent.zMax - img.Extent.zMin + 1)

/-- Modelled from the spec: `vtkOrientedImageData::GetImageToWorldMatrix`, whose
source file is not among the sources. The image-to-world affine transform
maps voxel-index coordinates to physical coordinates: column `c` of the linear
part is direction column `c` scaled by the spacing on axis `c`, the last column
is the origin. -/
def GetImageToWorldMatrix (img : vtkOrientedImageData) : vtkMatrix4x4 :=
  { m00 := img.Directions.d00 * img.Spacing.x, m01 := img.Directions.d01 * img.Spacing.y,
    m02 := img.Directions.d02 * img.Spacing.z, m03 := img.Origin.x,
    m10 := img.Directions.d10 * img.Spacing.x, m11 := img.Directions.d11 * img.Spacing.y,
    m12 := img.Directions.d12 * img.Spacing.z, m13 := img.Origin.y,
    m20 := img.Directions.d20 * img.Spacing.x, m21 := img.Directions.d21 * img.Spacing.y,
    m22 := img.Directions.d22 * img.Spacing.z, m23 := img.Origin.z,
    m30 := 0, m31 := 0, m32 := 0, m33 := 1 }

/-- Modelled from the spec: `vtkOrientedImageData::SetGeometryFromImageToWorldMatrix`
called with the identity matrix, whose source file is not among the sources.
The image-to-world transform is overridden to identity: zero origin, unit
spacing, identity directions. -/
def SetGeometryFromIdentityMatrix (img : vtkOrientedImageData) : vtkOrientedImageData :=
  { img with
    Origin := ⟨0, 0, 0⟩
    Spacing := ⟨1, 1, 1⟩
    Directions := ⟨1, 0, 0, 0, 1, 0, 0, 0, 1⟩ }

/-- Modelled from the spec: `vtkOrientedImageData::New`, whose source file is not
among the sources: a newly constructed, empty oriented image. It has the empty
extent `{0,-1,0,-1,0,-1}`, no scalars (VTK reports the scalar type `double`
then), zero origin, unit spacing and identity directions. -/
def New : vtkOrientedImageData :=
  { ScalarType := VTK_DOUBLE
    Extent := ⟨0, -1, 0, -1, 0, -1⟩
    Scalars := []
    Origin := ⟨0, 0, 0⟩
    Spacing := ⟨1, 1, 1⟩
    Directions := ⟨1, 0, 0, 0, 1, 0, 0, 0, 1⟩ }

/-- `DeepCopy`: a new object with the same contents. -/
def DeepCopy (img : vtkOrientedImageData) : vtkOrientedImageData := img

/-- `ShallowCopy`: a new object with the same contents (buffers shared). -/
def ShallowCopy (img : vtkOrientedImageData) : vtkOrientedImageData := img

/-- Scalar of the voxel with loop indices `(i,j,k)`, counted from the extent
minimum, in exact arithmetic. -/
def voxel (img : vtkOrientedImageData) (i j k : Int) : Int :=
  readScalar img.Scalars
    (i + j * img.GetDimensions.1 + k * img.GetDimensions.1 * img.GetDimensions.2.1)

/-- Whether the index `(x,y,z)` lies in the extent. -/
def inExtent (e : SlicerRT.Extent) (x y z : Int) : Bool :=
  decide (e.xMin ≤ x ∧ x ≤ e.xMax ∧ e.yMin ≤ y ∧ y ≤ e.yMax ∧ e.zMin ≤ z ∧ z ≤ e.zMax)

/-- Scalar of the voxel with index `(x,y,z)` of the index extent. -/
def voxelAtIndex (img : vtkOrientedImageData) (x y z : Int) : Int :=
  img.voxel (x - img.Extent.xMin) (y - img.Extent.yMin) (z - img.Extent.zMin)

/-- Modelled from the spec: the output of `vtkImageConstantPad` (VTK, not among
the sources) for the requested output extent, with its default constant 0. The
output holds the input voxel at every index of the input extent and the
background value at every other index; origin, spacing and scalar type are
those of the input. Element `n` of the output buffer is the voxel with loop
indices `(n % d0, (n / d0) % d1, n / (d0 * d1))`. -/
def constantPad (img : vtkOrientedImageData) (out : SlicerRT.Extent) : vtkOrientedImageData :=
  let d0 := (out.xMax - out.xMin + 1).toNat
  let d1 := (out.yMax - out.yMin + 1).toNat
  let d2 := (out.zMax - out.zMin + 1).toNat
  { img with
    Extent := out
    Scalars := (List.range (d0 * d1 * d2)).map fun n =>
      let x := out.xMin + ((n % d0 : Nat) : Int)
      let y := out.yMin + (((n / d0) % d1 : Nat) : Int)
      let z := out.zMin + ((n / (d0 * d1) : Nat) : Int)
      if inExtent img.Extent x y z then img.voxelAtIndex x y z else 0 }

/-- `vtkImageData::DeepCopy` of a padder output into an oriented image: extent,
scalars, scalar type, origin and spacing are taken from the copied image, the
directions of the receiving object stay. -/
def imageDataDeepCopy (self src : vtkOrientedImageData) : vtkOrientedImageData :=
  { self with
    ScalarType := src.ScalarType
    Extent := src.Extent
    Scalars := src.Scalars
    Origin := src.Origin
    Spacing := src.Spacing }

/-- The loop indices `(i,j,k)` are those of a voxel of the volume. -/
def IsVoxel (img : vtkOrientedImageData) (i j k : Int) : Prop :=
  0 ≤ i ∧ i < img.GetDimensions.1 ∧ 0 ≤ j ∧ j < img.GetDimensions.2.1
    ∧ 0 ≤ k ∧ k < img.GetDimensions.2.2

/-- The loop indices `(i,j,k)` lie on one of the six faces of the volume. -/
def OnFace (img : vtkOrientedImageData) (i j k : Int) : Prop :=
  i = 0 ∨ i = img.GetDimensions.1 - 1 ∨ j = 0 ∨ j = img.GetDimensions.2.1 - 1
    ∨ k = 0 ∨ k = img.GetDimensions.2.2 - 1

/-- Every voxel on the boundary shell holds the background value. -/
def BorderIsBackground (img : vtkOrientedImageData) : Prop :=
  ∀ i j k : Int, img.IsVoxel i j k → img.OnFace i j k → img.voxel i j k = 0

/-- The number of voxels is representable as a C `int`. -/
def VoxelCountFitsInt (img : vtkOrientedImageData) : Prop :=
  img.GetDimensions.1 * img.GetDimensions.2.1 * img.GetDimensions.2.2 ≤ INT_MAX

/-- The scalar encoding is one of the three supported ones. -/
def SupportedScalarType (img : vtkOrientedImageData) : Prop :=
  img.ScalarType = VTK_UNSIGNED_CHAR ∨ img.ScalarType = VTK_UNSIGNED_SHORT
    ∨ img.ScalarType = VTK_SHORT

instance (img : vtkOrientedImageData) (i j k : Int) : Decidable (img.IsVoxel i j k) :=
  inferInstanceAs (Decidable (0 ≤ i ∧ i < img.GetDimensions.1 ∧ 0 ≤ j
    ∧ j < img.GetDimensions.2.1 ∧ 0 ≤ k ∧ k < img.GetDimensions.2.2))

instance (img : vtkOrientedImageData) (i j k : Int) : Decidable (img.OnFace i j k) :=
  inferInstanceAs (Decidable (i = 0 ∨ i = img.GetDimensions.1 - 1 ∨ j = 0
    ∨ j = img.GetDimensions.2.1 - 1 ∨ k = 0 ∨ k = img.GetDimensions.2.2 - 1))

instance (img : vtkOrientedImageData) : Decidable img.VoxelCountFitsInt :=
  inferInstanceAs (Decidable
    (img.GetDimensions.1 * img.GetDimensions.2.1 * img.GetDimensions.2.2 ≤ INT_MAX))

instance (img : vtkOrientedImageData) : Decidable img.SupportedScalarType :=
  inferInstanceAs (Decidable (img.ScalarType = VTK_UNSIGNED_CHAR
    ∨ img.ScalarType = VTK_UNSIGNED_SHORT ∨ img.ScalarType = VTK_SHORT))

end vtkOrientedImageData

namespace vtkMatrix4x4

/-- `vtkMatrix4x4::Identity`. -/
def Identity : vtkMatrix4x4 :=
  ⟨1, 0, 0, 0, 0, 1, 0, 0, 0, 0, 1, 0, 0, 0, 0, 1⟩

/-- `vtkMatrix4x4::Multiply4x4`: the matrix product `a * b`. -/
def Multiply4x4 (a b : vtkMatrix4x4) : vtkMatrix4x4 :=
  { m00 := a.m00 * b.m00 + a.m01 * b.m10 + a.m02 * b.m20 + a.m03 * b.m30
    m01 := a.m00 * b.m01 + a.m01 * b.m11 + a.m02 * b.m21 + a.m03 * b.m31
    m02 := a.m00 * b.m02 + a.m01 * b.m12 + a.m02 * b.m22 + a.m03 * b.m32
    m03 := a.m00 * b.m03 + a.m01 * b.m13 + a.m02 * b.m23 + a.m03 * b.m33
    m10 := a.m10 * b.m00 + a.m11 * b.m10 + a.m12 * b.m20 + a.m13 * b.m30
    m11 := a.m10 * b.m01 + a.m11 * b.m11 + a.m12 * b.m21 + a.m13 * b.m31
    m12 := a.m10 * b.m02 + a.m11 * b.m12 + a.m12 * b.m22 + a.m13 * b.m32
    m13 := a.m10 * b.m03 + a.m11 * b.m13 + a.m12 * b.m23 + a.m13 * b.m33
    m20 := a.m20 * b.m00 + a.m21 * b.m10 + a.m22 * b.m20 + a.m23 * b.m30
    m21 := a.m20 * b.m01 + a.m21 * b.m11 + a.m22 * b.m21 + a.m23 * b.m31
    m22 := a.m20 * b.m02 + a.m21 * b.m12 + a.m22 * b.m22 + a.m23 * b.m32
    m23 := a.m20 * b.m03 + a.m21 * b.m13 + a.m22 * b.m23 + a.m23 * b.m33
    m30 := a.m30 * b.m00 + a.m31 * b.m10 + a.m32 * b.m20 + a.m33 * b.m30
    m31 := a.m30 * b.m01 + a.m31 * b.m11 + a.m32 * b.m21 + a.m33 * b.m31
    m32 := a.m30 * b.m02 + a.m31 * b.m12 + a.m32 * b.m22 + a.m33 * b.m32
    m33 := a.m30 * b.m03 + a.m31 * b.m13 + a.m32 * b.m23 + a.m33 * b.m33 }

/-- Image of a point under the affine transform of the matrix, as
`vtkLinearTransform` computes it: the first three rows applied to `(x,y,z,1)`. -/
def TransformPoint (m : vtkMatrix4x4) (p : Vec3) : Vec3 :=
  { x := m.m00 * p.x + m.m01 * p.y + m.m02 * p.z + m.m03
    y := m.m10 * p.x + m.m11 * p.y + m.m12 * p.z + m.m13
    z := m.m20 * p.x + m.m21 * p.y + m.m22 * p.z + m.m23 }

end vtkMatrix4x4

namespace vtkPolyData

/-- `vtkPolyData::New`: a newly constructed, empty mesh. -/
def New : vtkPolyData := { Points := [], Polys := [] }

/-- `vtkPolyData::GetNumberOfPolys`. -/
def GetNumberOfPolys (mesh : vtkPolyData) : Nat := mesh.Polys.length

end vtkPolyData

/-- Modelled from the spec: output of `vtkTransformPolyDataFilter` (VTK, not
among the sources) with a `vtkTransform` holding the given matrix: the
transform is applied to every vertex, the cells are passed through. -/
def transformPolyData (matrix : vtkMatrix4x4) (mesh : vtkPolyData) : vtkPolyData :=
  { Points := mesh.Points.map matrix.TransformPoint
    Polys := mesh.Polys }

/-- Result of running a VTK filter inside `try`. -/
inductive Outcome (α : Type) where
  | threw
  | output (value : α)
  deriving DecidableEq

/-- Configuration of the `vtkMarchingCubes` instance at `Update`. -/
structure MarchingCubesSettings where
  NumberOfContours : Nat
  Value0 : ℚ
  ComputeScalars : Bool
  ComputeGradients : Bool
  ComputeNormals : Bool
  deriving DecidableEq

/-- Configuration of the `vtkDecimatePro` instance at `Update`. -/
structure DecimateProSettings where
  FeatureAngle : ℚ
  Splitting : Bool
  PreserveTopology : Bool
  MaximumError : ℚ
  TargetReduction : ℚ
  deriving DecidableEq

/-- The collaborators of the rule that are not among the sources, taken as
parameters: the VTK iso-surface and decimation filters, and the converter
routine that parses a floating point parameter value. -/
structure Collaborators where
  marchingCubes : MarchingCubesSettings → vtkOrientedImageData → Outcome vtkPolyData
  decimatePro : DecimateProSettings → vtkPolyData → Outcome vtkPolyData
  DeserializeFloatingPointConversionParameter : String → ℚ

/-- One execution of a VTK filter (`Update`), with its configuration and input. -/
inductive FilterRun where
  | constantPad (input : vtkOrientedImageData) (outputWholeExtent : Extent)
  | marchingCubes (settings : MarchingCubesSettings) (input : vtkOrientedImageData)
  | decimatePro (settings : DecimateProSettings) (input : vtkPolyData)
  | transformPolyData (matrix : vtkMatrix4x4) (input : vtkPolyData)
  deriving DecidableEq

/-- Explicit state around a call of `Convert`: the objects behind the two
arguments, the volumes allocated with `New` by the rule and not yet deleted,
the errors reported and the filters run, in order. -/
structure World where
  source : Option vtkDataObject
  target : Option vtkDataObject
  temporaries : List vtkOrientedImageData
  errors : List String
  runs : List FilterRun
  deriving DecidableEq

namespace vtkBinaryLabelmapToClosedSurfaceConversionRule

/-- `GetConversionCost`: the rough input-independent guess, in milliseconds. -/
def GetConversionCost (_sourceRepresentation _targetRepresentation : Option vtkDataObject) :
    Nat :=
  500

/-- `ConstructRepresentationObjectByRepresentation`. The two representation
names, which `GetSourceRepresentationName` and `GetTargetRepresentationName`
return, are declared in headers that are not among the sources and are taken
as parameters. `std::string::compare` returns 0 exactly on equal strings. -/
def ConstructRepresentationObjectByRepresentation
    (sourceRepresentationName targetRepresentationName : String)
    (representationName : String) : Option vtkDataObject :=
  if representationName = sourceRepresentationName then
    some (.orientedImageData vtkOrientedImageData.New)
  else if representationName = targetRepresentationName then
    some (.polyData vtkPolyData.New)
  else
    none

/-- `ConstructRepresentationObjectByClass`. -/
def ConstructRepresentationObjectByClass (className : String) : Option vtkDataObject :=
  if className = "vtkOrientedImageData" then
    some (.orientedImageData vtkOrientedImageData.New)
  else if className = "vtkPolyData" then
    some (.polyData vtkPolyData.New)
  else
    none

/-- Error text of the scalar type check. -/
def scalarTypeError : String :=
  "IsLabelmapPaddingNecessary: Image scalar type must be unsigned char, unsighed short, or short!"

/-- Value assigned to `voxelValue` for loop indices `(i,j,k)`. -/
def borderVoxelValue (img : vtkOrientedImageData) (d0 d1 : Int) (i j k : Int) : Int :=
  if img.ScalarType = VTK_UNSIGNED_CHAR then
    readScalar img.Scalars (voxelOffset d0 d1 i j k)
  else if img.ScalarType = VTK_UNSIGNED_SHORT then
    readScalar img.Scalars (voxelOffset d0 d1 i j k)
  else if img.ScalarType = VTK_SHORT then
    readScalar img.Scalars (voxelOffset d0 d1 i j k)
  else 0

/-- The three nested loops of `IsLabelmapPaddingNecessary`: true as soon as a
voxel that is not skipped holds a non-zero value. -/
def scanBorder (img : vtkOrientedImageData) : Bool :=
  let d0 := img.GetDimensions.1
  let d1 := img.GetDimensions.2.1
  let d2 := img.GetDimensions.2.2
  (List.range d0.toNat).any fun i =>
    (List.range d1.toNat).any fun j =>
      (List.range d2.toNat).any fun k =>
        if (i : Int) ≠ 0 ∧ (i : Int) ≠ d0 - 1 ∧ (j : Int) ≠ 0 ∧ (j : Int) ≠ d1 - 1
            ∧ (k : Int) ≠ 0 ∧ (k : Int) ≠ d2 - 1 then
          false
        else
          decide (borderVoxelValue img d0 d1 i j k ≠ 0)

/-- `IsLabelmapPaddingNecessary`: the returned flag and the errors reported. -/
def IsLabelmapPaddingNecessary : Option vtkOrientedImageData → Bool × List String
  | none => (false, [])
  | some img =>
    if img.ScalarType ≠ VTK_UNSIGNED_CHAR ∧ img.ScalarType ≠ VTK_UNSIGNED_SHORT
        ∧ img.ScalarType ≠ VTK_SHORT then
      (false, [scalarTypeError])
    else
      (scanBorder img, [])

/-- `PadLabelmap`: runs the constant pad filter with the output extent grown by
one on each side of the extent of the labelmap, then copies the filter output
into the labelmap with `vtkImageData::DeepCopy`. -/
def PadLabelmap (binaryLabelMap : vtkOrientedImageData) : vtkOrientedImageData :=
  let extent := binaryLabelMap.Extent
  let padderOutput := binaryLabelMap.constantPad
    { xMin := extent.xMin - 1, xMax := extent.xMax + 1,
      yMin := extent.yMin - 1, yMax := extent.yMax + 1,
      zMin := extent.zMin - 1, zMax := extent.zMax + 1 }
  binaryLabelMap.imageDataDeepCopy padderOutput

/-- The filter execution made by `PadLabelmap` on the labelmap. -/
def padRun (binaryLabelMap : vtkOrientedImageData) : FilterRun :=
  .constantPad binaryLabelMap
    { xMin := binaryLabelMap.Extent.xMin - 1, xMax := binaryLabelMap.Extent.xMax + 1,
      yMin := binaryLabelMap.Extent.yMin - 1, yMax := binaryLabelMap.Extent.yMax + 1,
      zMin := binaryLabelMap.Extent.zMin - 1, zMax := binaryLabelMap.Extent.zMax + 1 }

/-- The rule object: its conversion parameters, each a name with a value and a
description. -/
structure Rule where
  ConversionParameters : List (String × String × String)
  deriving DecidableEq

/-- Modelled from the spec: `GetDecimationFactorParameterName`, declared in the
header that is not among the sources; the key of the one parameter of the
rule, the decimation factor. -/
def GetDecimationFactorParameterName : String := "Decimation factor"

/-- The constructor: the decimation factor parameter with its default "0.0". -/
def Rule.new : Rule :=
  { ConversionParameters :=
      [(GetDecimationFactorParameterName, "0.0",
        "Desired reduction in the total number of polygons (e.g., if set to 0.9, then reduce the data set to 10% of its original size)")] }

/-- `ConversionParameters[name].first`: the value stored under the name, the
empty string of a default-constructed entry when there is none. -/
def Rule.parameterValue (self : Rule) (name : String) : String :=
  ((self.ConversionParameters.lookup name).getD ("", "")).1

/-- Settings of the marching cubes filter when `Convert` updates it. -/
def marchingCubesSettings : MarchingCubesSettings :=
  { NumberOfContours := 1, Value0 := 1 / 2, ComputeScalars := false,
    ComputeGradients := false, ComputeNormals := false }

/-- Settings of the decimator when `Convert` updates it. -/
def decimateProSettings (decimationFactor : ℚ) : DecimateProSettings :=
  { FeatureAngle := 60, Splitting := false, PreserveTopology := true,
    MaximumError := 1, TargetReduction := decimationFactor }

/-- An error reported through the VTK error facility. -/
def reportError (w : World) (message : String) : World :=
  { w with errors := w.errors ++ [message] }

/-- A filter execution appended to the record of the state. -/
def recordRun (w : World) (run : FilterRun) : World :=
  { w with runs := w.runs ++ [run] }

/-- Tail of `Convert` (lines 183-208): transform the surface to world
coordinates, shallow-copy the result into the target, delete the padded
labelmap if one was created. -/
def transformAndStore (w : World) (paddingNecessary : Bool)
    (binaryLabelMap : vtkOrientedImageData) (labelmapImageToWorldMatrix : vtkMatrix4x4)
    (surface : vtkPolyData) : World :=
  let w1 := recordRun w (.transformPolyData labelmapImageToWorldMatrix surface)
  let w2 : World :=
    { w1 with target := some (.polyData (transformPolyData labelmapImageToWorldMatrix surface)) }
  if paddingNecessary then
    { w2 with temporaries := w2.temporaries.erase binaryLabelMap }
  else w2

/-- Body of `Convert` after the two downcasts succeeded (lines 109-208). -/
def convertLabelmap (self : Rule) (vtk : Collaborators) (w : World)
    (sourceLabelmap : vtkOrientedImageData) : Bool × World :=
  let scan := IsLabelmapPaddingNecessary (some sourceLabelmap)
  let paddingNecessary := scan.1
  let w1 : World := { w with errors := w.errors ++ scan.2 }
  let binaryLabelMap :=
    if paddingNecessary then PadLabelmap sourceLabelmap.DeepCopy else sourceLabelmap
  let w2 : World :=
    if paddingNecessary then
      recordRun { w1 with temporaries := binaryLabelMap :: w1.temporaries }
        (padRun sourceLabelmap.DeepCopy)
    else w1
  let decimationFactor := vtk.DeserializeFloatingPointConversionParameter
    (self.parameterValue GetDecimationFactorParameterName)
  let labelmapImageToWorldMatrix := binaryLabelMap.GetImageToWorldMatrix
  let binaryLabelmapWithIdentityGeometry := binaryLabelMap.ShallowCopy.SetGeometryFromIdentityMatrix
  let w3 := recordRun w2 (.marchingCubes marchingCubesSettings binaryLabelmapWithIdentityGeometry)
  match vtk.marchingCubes marchingCubesSettings binaryLabelmapWithIdentityGeometry with
  | .threw => (false, reportError w3 "Convert: Error while running marching cubes!")
  | .output marchingCubesOutput =>
    if marchingCubesOutput.GetNumberOfPolys = 0 then
      (false, reportError w3 "Convert: No polygons can be created!")
    else if decimationFactor > 0 then
      let w4 := recordRun w3 (.decimatePro (decimateProSettings decimationFactor) marchingCubesOutput)
      match vtk.decimatePro (decimateProSettings decimationFactor) marchingCubesOutput with
      | .threw => (false, reportError w4 "Error decimating model")
      | .output decimatorOutput =>
        (true, transformAndStore w4 paddingNecessary binaryLabelMap labelmapImageToWorldMatrix
          decimatorOutput)
    else
      (true, transformAndStore w3 paddingNecessary binaryLabelMap labelmapImageToWorldMatrix
        marchingCubesOutput)

/-- `Convert`: the returned flag and the state after the call. -/
def Convert (self : Rule) (vtk : Collaborators) (w : World) : Bool × World :=
  match w.source with
  | some (.orientedImageData sourceLabelmap) =>
    match w.target with
    | some (.polyData _) => convertLabelmap self vtk w sourceLabelmap
    | _ => (false, reportError w "Convert: Target representation is not a poly data!")
  | _ => (false, reportError w "Convert: Source representation is not an oriented image data!")

/-- The filters run between the state before a call and the state after it. -/
def runsOfCall (before after : World) : List FilterRun :=
  after.runs.drop before.runs.length

end vtkBinaryLabelmapToClosedSurfaceConversionRule

/-! ## Concrete inputs -/

/-- A closed surface of four triangles. -/
def sampleTetrahedron : vtkPolyData :=
  { Points := [⟨0, 0, 0⟩, ⟨1, 0, 0⟩, ⟨0, 1, 0⟩, ⟨0, 0, 1⟩]
    Polys := [[0, 2, 1], [0, 1, 3], [0, 3, 2], [1, 2, 3]] }

/-- An extractor that yields a surface exactly when the volume has voxels on
both sides of the half level, as a contour at 0.5 requires. -/
def sampleExtractor (_settings : MarchingCubesSettings) (img : vtkOrientedImageData) :
    Outcome vtkPolyData :=
  if img.Scalars.any (fun v => decide (1 ≤ v)) && img.Scalars.any (fun v => decide (v ≤ 0)) then
    .output sampleTetrahedron
  else .output ⟨[], []⟩

/-- Collaborators that never throw: the sample extractor, a decimator that
returns its input, and a parser that knows the default "0.0". -/
def sampleCollaborators : Collaborators :=
  { marchingCubes := sampleExtractor
    decimatePro := fun _ mesh => .output mesh
    DeserializeFloatingPointConversionParameter := fun s => if s = "0.0" then 0 else 1 / 2 }

/-- Collaborators whose extractor throws. -/
def sampleThrowingExtractor : Collaborators :=
  { sampleCollaborators with marchingCubes := fun _ _ => .threw }

/-- Collaborators whose decimator throws, with a parser that always yields the
decimation factor 1/2. -/
def sampleThrowingDecimator : Collaborators :=
  { sampleCollaborators with
    decimatePro := fun _ _ => .threw
    DeserializeFloatingPointConversionParameter := fun _ => 1 / 2 }

/-- An image with zero origin, unit spacing and identity directions. -/
def unitGeometryImage (scalarType : Int) (e : Extent) (scalars : List Int) :
    vtkOrientedImageData :=
  { ScalarType := scalarType, Extent := e, Scalars := scalars,
    Origin := ⟨0, 0, 0⟩, Spacing := ⟨1, 1, 1⟩, Directions := ⟨1, 0, 0, 0, 1, 0, 0, 0, 1⟩ }

/-- A 3x3x3 `unsigned char` volume whose only foreground voxel is the centre. -/
def sampleInterior : vtkOrientedImageData :=
  unitGeometryImage VTK_UNSIGNED_CHAR ⟨0, 2, 0, 2, 0, 2⟩
    [0, 0, 0, 0, 0, 0, 0, 0, 0, 0, 0, 0, 0, 1, 0, 0, 0, 0, 0, 0, 0, 0, 0, 0, 0, 0, 0]

/-- A 2x2x1 `unsigned char` volume with one foreground voxel, on the border. -/
def sampleBorder : vtkOrientedImageData :=
  unitGeometryImage VTK_UNSIGNED_CHAR ⟨0, 1, 0, 1, 0, 0⟩ [1, 0, 0, 0]

/-- The voxels of `sampleBorder` placed with origin (10,0,0) and spacing 2. -/
def sampleBorderMoved : vtkOrientedImageData :=
  { sampleBorder with Origin := ⟨10, 0, 0⟩, Spacing := ⟨2, 2, 2⟩ }

/-- Translation by (10,0,0) composed with uniform scale 2. -/
def sampleScaleTranslate : vtkMatrix4x4 :=
  ⟨2, 0, 0, 10, 0, 2, 0, 0, 0, 0, 2, 0, 0, 0, 0, 1⟩

/-- A 2x2x1 `float` volume with one foreground voxel, on the border. -/
def sampleFloat : vtkOrientedImageData :=
  unitGeometryImage VTK_FLOAT ⟨0, 1, 0, 1, 0, 0⟩ [1, 0, 0, 0]

/-- A single-voxel `short` volume whose voxel holds -1. -/
def sampleShortNegative : vtkOrientedImageData :=
  unitGeometryImage VTK_SHORT ⟨0, 0, 0, 0, 0, 0⟩ [-1]

/-- A mesh standing for the prior contents of a target. -/
def samplePriorMesh : vtkPolyData :=
  { Points := [⟨7, 7, 7⟩, ⟨8, 7, 7⟩, ⟨7, 8, 7⟩], Polys := [[0, 1, 2]] }

/-- State before a call whose source is the image and whose target is a mesh
with prior contents. -/
def sampleWorld (img : vtkOrientedImageData) : World :=
  { source := some (.orientedImageData img), target := some (.polyData samplePriorMesh),
    temporaries := [], errors := [], runs := [] }

/-- The sample 3x3x3 volume with the centre voxel set, stored as `float`. -/
def sampleFloatInterior : vtkOrientedImageData :=
  { sampleInterior with ScalarType := VTK_FLOAT }

/-- State before a call whose source is a mesh instead of an oriented image. -/
def sampleWrongSourceWorld : World :=
  { source := some (.polyData samplePriorMesh), target := some (.polyData samplePriorMesh),
    temporaries := [], errors := [], runs := [] }

/-- State before a call whose target pointer is null. -/
def sampleNullTargetWorld : World :=
  { source := some (.orientedImageData sampleBorder), target := none,
    temporaries := [], errors := [], runs := [] }

/-- A 3x3x3 `unsigned char` volume that is all background. -/
def sampleBackground : vtkOrientedImageData :=
  unitGeometryImage VTK_UNSIGNED_CHAR ⟨0, 2, 0, 2, 0, 2⟩ (List.replicate 27 0)

/-- The sample 3x3x3 volume with the value of the centre voxel changed. -/
def sampleInteriorOther : vtkOrientedImageData :=
  { sampleInterior with
    Scalars := [0, 0, 0, 0, 0, 0, 0, 0, 0, 0, 0, 0, 0, 5, 0, 0, 0, 0, 0, 0, 0, 0, 0, 0, 0, 0, 0] }

/-- A rule whose decimation factor parameter holds "0.5". -/
def sampleDecimatingRule : vtkBinaryLabelmapToClosedSurfaceConversionRule.Rule :=
  { ConversionParameters :=
      [(vtkBinaryLabelmapToClosedSurfaceConversionRule.GetDecimationFactorParameterName,
        "0.5", "")] }

/-- A scalar buffer that is background except for one scalar of value 1, which
has `before` scalars in front of it and `after` scalars behind it. -/
def spikeBuffer (before after : Nat) : List Int :=
  List.replicate before 0 ++ 1 :: List.replicate after 0

/-- A 32768x32768x3 `unsigned char` volume (3 * 2^30 voxels) whose only
foreground voxel has loop indices (0,0,2), on the face `k = dim2 - 1`; the
voxel is the scalar number 2^31 of the buffer. -/
def sampleHuge : vtkOrientedImageData :=
  unitGeometryImage VTK_UNSIGNED_CHAR ⟨0, 32767, 0, 32767, 0, 2⟩
    (spikeBuffer 2147483648 1073741823)

/-- A 3x3x2^30 `unsigned char` volume that is all background. -/
def sampleLongBackground : vtkOrientedImageData :=
  unitGeometryImage VTK_UNSIGNED_CHAR ⟨0, 2, 0, 2, 0, 1073741823⟩
    (List.replicate 9663676416 0)

/-- A 3x3x2^30 `unsigned char` volume whose only foreground voxel has loop
indices (1,1,1), strictly interior; the voxel is the scalar number 13 of the
buffer. -/
def sampleLongInterior : vtkOrientedImageData :=
  unitGeometryImage VTK_UNSIGNED_CHAR ⟨0, 2, 0, 2, 0, 1073741823⟩
    (spikeBuffer 13 9663676402)

/-- A 1x1x(2^30-2) `unsigned char` column whose first voxel is foreground. -/
def sampleColumn : vtkOrientedImageData :=
  unitGeometryImage VTK_UNSIGNED_CHAR ⟨0, 0, 0, 0, 0, 1073741821⟩
    (spikeBuffer 0 1073741821)

end SlicerRT

/-! ## Theorems -/

namespace SlicerRT

open vtkBinaryLabelmapToClosedSurfaceConversionRule

/-! ### Border scan -/

theorem wrapInt32_of_fits (x : Int) (h1 : -2147483648 ≤ x) (h2 : x ≤ 2147483647) :
    wrapInt32 x = x := by
  unfold wrapInt32
  omega

theorem voxelOffset_of_fits (d0 d1 d2 i j k : Int)
    (hi0 : 0 ≤ i) (hi : i < d0) (hj0 : 0 ≤ j) (hj : j < d1) (hk0 : 0 ≤ k) (hk : k < d2)
    (hfit : d0 * d1 * d2 ≤ INT_MAX) :
    voxelOffset d0 d1 i j k = i + j * d0 + k * d0 * d1 := by
  unfold INT_MAX at hfit
  have hd0 : 1 ≤ d0 := by omega
  have hd1 : 1 ≤ d1 := by omega
  have hd2 : 1 ≤ d2 := by omega
  have h01 : 0 ≤ d0 * d1 := by positivity
  have a1 : 0 ≤ j * d0 := by positivity
  have a2 : j * d0 ≤ d0 * d1 := by nlinarith
  have a3 : d0 * d1 ≤ d0 * d1 * d2 := by nlinarith
  have b1 : 0 ≤ k * d0 := by positivity
  have b2 : k * d0 ≤ d0 * d1 * d2 := by
    have : k * d0 ≤ d2 * d0 := by nlinarith
    have : d2 * d0 ≤ d0 * d1 * d2 := by nlinarith
    linarith
  have c1 : 0 ≤ k * d0 * d1 := by positivity
  have c2 : k * d0 * d1 ≤ d0 * d1 * d2 := by
    have : k * (d0 * d1) ≤ d2 * (d0 * d1) := by nlinarith
    nlinarith
  unfold voxelOffset
  rw [wrapInt32_of_fits (j * d0) (by linarith) (by linarith),
    wrapInt32_of_fits (k * d0) (by linarith) (by linarith),
    wrapInt32_of_fits (k * d0 * d1) (by linarith) (by linarith)]

theorem borderVoxelValue_eq_voxel (img : vtkOrientedImageData) (i j k : Int)
    (hT : img.SupportedScalarType) (hfit : img.VoxelCountFitsInt) (hv : img.IsVoxel i j k) :
    borderVoxelValue img img.GetDimensions.1 img.GetDimensions.2.1 i j k = img.voxel i j k := by
  obtain ⟨hi0, hi, hj0, hj, hk0, hk⟩ := hv
  have ho := voxelOffset_of_fits _ _ _ i j k hi0 hi hj0 hj hk0 hk hfit
  unfold borderVoxelValue vtkOrientedImageData.voxel
  rw [ho]
  rcases hT with h | h | h
  · simp [h]
  · simp [h]
  · simp [h]

theorem scanBorder_iff (img : vtkOrientedImageData)
    (hT : img.SupportedScalarType) (hfit : img.VoxelCountFitsInt) :
    scanBorder img = true ↔
      ∃ i j k : Int, img.IsVoxel i j k ∧ img.OnFace i j k ∧ img.voxel i j k ≠ 0 := by
  unfold scanBorder
  simp only [List.any_eq_true, List.mem_range]
  constructor
  · rintro ⟨i, hi, j, hj, k, hk, h⟩
    have hv : img.IsVoxel (i : Int) (j : Int) (k : Int) := by
      unfold vtkOrientedImageData.IsVoxel
      omega
    rw [borderVoxelValue_eq_voxel img _ _ _ hT hfit hv] at h
    split at h
    · exact absurd h (by simp)
    · rename_i hface
      refine ⟨i, j, k, hv, ?_, by simpa using h⟩
      unfold vtkOrientedImageData.OnFace
      omega
  · rintro ⟨i, j, k, hv, hface, hne⟩
    have hv2 := hv
    obtain ⟨hi0, hi, hj0, hj, hk0, hk⟩ := hv2
    refine ⟨i.toNat, by omega, j.toNat, by omega, k.toNat, by omega, ?_⟩
    have ei : ((i.toNat : Nat) : Int) = i := Int.toNat_of_nonneg hi0
    have ej : ((j.toNat : Nat) : Int) = j := Int.toNat_of_nonneg hj0
    have ek : ((k.toNat : Nat) : Int) = k := Int.toNat_of_nonneg hk0
    rw [ei, ej, ek, borderVoxelValue_eq_voxel img _ _ _ hT hfit hv]
    unfold vtkOrientedImageData.OnFace at hface
    rw [if_neg (by omega)]
    simpa using hne

theorem IsLabelmapPaddingNecessary_supported (img : vtkOrientedImageData)
    (hT : img.SupportedScalarType) :
    (IsLabelmapPaddingNecessary (some img)).1 = scanBorder img := by
  unfold vtkOrientedImageData.SupportedScalarType at hT
  simp only [IsLabelmapPaddingNecessary]
  rw [if_neg (by tauto)]

theorem IsLabelmapPaddingNecessary_of_unsupported (img : vtkOrientedImageData)
    (hT : ¬ img.SupportedScalarType) :
    IsLabelmapPaddingNecessary (some img) = (false, [scalarTypeError]) := by
  unfold vtkOrientedImageData.SupportedScalarType at hT
  simp only [IsLabelmapPaddingNecessary]
  rw [if_pos (by tauto)]

theorem BorderIsBackground_of_scan_false (img : vtkOrientedImageData)
    (hT : img.SupportedScalarType) (hfit : img.VoxelCountFitsInt)
    (h : (IsLabelmapPaddingNecessary (some img)).1 = false) : img.BorderIsBackground := by
  rw [IsLabelmapPaddingNecessary_supported img hT] at h
  intro i j k hv hface
  by_contra hne
  have := (scanBorder_iff img hT hfit).2 ⟨i, j, k, hv, hface, hne⟩
  rw [h] at this
  exact Bool.false_ne_true this

theorem IsLabelmapPaddingNecessary_congr (a b : vtkOrientedImageData)
    (hty : b.ScalarType = a.ScalarType) (hext : b.Extent = a.Extent)
    (hsc : b.Scalars = a.Scalars) :
    IsLabelmapPaddingNecessary (some b) = IsLabelmapPaddingNecessary (some a) := by
  obtain ⟨ty, ext, sc, o, s, d⟩ := a
  obtain ⟨ty2, ext2, sc2, o2, s2, d2⟩ := b
  simp only at hty hext hsc
  subst hty hext hsc
  rfl

/-! ### Padding -/

theorem decode_x (a b i j k : Nat) (hi : i < a) :
    (i + j * a + k * a * b) % a = i := by
  have h : i + j * a + k * a * b = i + a * (j + k * b) := by ring
  rw [h, Nat.add_mul_mod_self_left, Nat.mod_eq_of_lt hi]

theorem decode_y (a b i j k : Nat) (hi : i < a) (hj : j < b) :
    ((i + j * a + k * a * b) / a) % b = j := by
  have ha : 0 < a := by omega
  have h : i + j * a + k * a * b = i + a * (j + k * b) := by ring
  rw [h, Nat.add_mul_div_left _ _ ha, Nat.div_eq_of_lt hi, Nat.zero_add,
    Nat.add_mul_mod_self_right, Nat.mod_eq_of_lt hj]

theorem decode_z (a b i j k : Nat) (hi : i < a) (hj : j < b) :
    (i + j * a + k * a * b) / (a * b) = k := by
  have ha : 0 < a := by omega
  have hb : 0 < b := by omega
  have hlt : i + j * a < a * b := by
    have : (j + 1) * a ≤ b * a := Nat.mul_le_mul_right a hj
    nlinarith
  have h : i + j * a + k * a * b = (i + j * a) + (a * b) * k := by ring
  rw [h, Nat.add_mul_div_left _ _ (Nat.mul_pos ha hb), Nat.div_eq_of_lt hlt, Nat.zero_add]

theorem offset_lt (a b c i j k : Nat) (hi : i < a) (hj : j < b) (hk : k < c) :
    i + j * a + k * a * b < a * b * c := by
  have h1 : i + j * a < a * b := by
    have : (j + 1) * a ≤ b * a := Nat.mul_le_mul_right a hj
    nlinarith
  have h2 : (k + 1) * (a * b) ≤ c * (a * b) := Nat.mul_le_mul_right (a * b) hk
  nlinarith

theorem voxel_PadLabelmap (img : vtkOrientedImageData) (i j k : Int)
    (hv : (PadLabelmap img).IsVoxel i j k) :
    (PadLabelmap img).voxel i j k =
      if vtkOrientedImageData.inExtent img.Extent (img.Extent.xMin - 1 + i)
          (img.Extent.yMin - 1 + j) (img.Extent.zMin - 1 + k) then
        img.voxelAtIndex (img.Extent.xMin - 1 + i) (img.Extent.yMin - 1 + j)
          (img.Extent.zMin - 1 + k)
      else 0 := by
  obtain ⟨hi0, hi, hj0, hj, hk0, hk⟩ := hv
  simp only [PadLabelmap, vtkOrientedImageData.imageDataDeepCopy,
    vtkOrientedImageData.constantPad, vtkOrientedImageData.GetDimensions] at hi hj hk
  obtain ⟨a, rfl⟩ := Int.eq_ofNat_of_zero_le hi0
  obtain ⟨b, rfl⟩ := Int.eq_ofNat_of_zero_le hj0
  obtain ⟨c, rfl⟩ := Int.eq_ofNat_of_zero_le hk0
  generalize hA : (img.Extent.xMax + 1 - (img.Extent.xMin - 1) + 1).toNat = A at *
  generalize hB : (img.Extent.yMax + 1 - (img.Extent.yMin - 1) + 1).toNat = B at *
  generalize hC : (img.Extent.zMax + 1 - (img.Extent.zMin - 1) + 1).toNat = C at *
  have eA : img.Extent.xMax + 1 - (img.Extent.xMin - 1) + 1 = (A : Int) := by omega
  have eB : img.Extent.yMax + 1 - (img.Extent.yMin - 1) + 1 = (B : Int) := by omega
  have eC : img.Extent.zMax + 1 - (img.Extent.zMin - 1) + 1 = (C : Int) := by omega
  have ha : a < A := by omega
  have hb : b < B := by omega
  have hc : c < C := by omega
  have hoff : ((a : Int) + (b : Int) * (A : Int) + (c : Int) * (A : Int) * (B : Int))
      = ((a + b * A + c * A * B : Nat) : Int) := by push_cast; ring
  simp only [vtkOrientedImageData.voxel, PadLabelmap, vtkOrientedImageData.imageDataDeepCopy,
    vtkOrientedImageData.constantPad, vtkOrientedImageData.GetDimensions, readScalar]
  rw [hA, hB, hC, eA, eB, hoff]
  rw [if_neg (by omega), Int.toNat_ofNat, List.getD_eq_getElem?_getD, List.getElem?_map,
    List.getElem?_range (offset_lt A B C a b c ha hb hc)]
  simp only [Option.map_some', Option.getD_some]
  rw [decode_x A B a b c ha, decode_y A B a b c ha hb, decode_z A B a b c ha hb]

theorem PadLabelmap_border (img : vtkOrientedImageData) :
    (PadLabelmap img).BorderIsBackground := by
  intro i j k hv hface
  rw [voxel_PadLabelmap img i j k hv]
  have hout : vtkOrientedImageData.inExtent img.Extent (img.Extent.xMin - 1 + i)
      (img.Extent.yMin - 1 + j) (img.Extent.zMin - 1 + k) = false := by
    simp only [vtkOrientedImageData.OnFace, PadLabelmap, vtkOrientedImageData.imageDataDeepCopy,
      vtkOrientedImageData.constantPad, vtkOrientedImageData.GetDimensions] at hface
    simp only [vtkOrientedImageData.inExtent, decide_eq_false_iff_not]
    omega
  rw [hout]
  rfl

theorem BorderIsBackground_identityGeometry (img : vtkOrientedImageData)
    (h : img.BorderIsBackground) :
    img.ShallowCopy.SetGeometryFromIdentityMatrix.BorderIsBackground := h

theorem IsLabelmapPaddingNecessary_PadLabelmap (img : vtkOrientedImageData)
    (hfit : (PadLabelmap img).VoxelCountFitsInt) :
    (IsLabelmapPaddingNecessary (some (PadLabelmap img))).1 = false := by
  by_cases hT : (PadLabelmap img).SupportedScalarType
  · rw [IsLabelmapPaddingNecessary_supported _ hT]
    cases hb : scanBorder (PadLabelmap img) with
    | false => rfl
    | true =>
      obtain ⟨i, j, k, hv, hface, hne⟩ := (scanBorder_iff _ hT hfit).1 hb
      exact absurd (PadLabelmap_border img i j k hv hface) hne
  · rw [IsLabelmapPaddingNecessary_of_unsupported _ hT]

theorem GetImageToWorldMatrix_identityGeometry (img : vtkOrientedImageData) :
    img.SetGeometryFromIdentityMatrix.GetImageToWorldMatrix = vtkMatrix4x4.Identity := by
  simp [vtkOrientedImageData.SetGeometryFromIdentityMatrix,
    vtkOrientedImageData.GetImageToWorldMatrix, vtkMatrix4x4.Identity]

theorem GetImageToWorldMatrix_PadLabelmap (img : vtkOrientedImageData) :
    (PadLabelmap img).GetImageToWorldMatrix = img.GetImageToWorldMatrix := rfl

theorem GetImageToWorldMatrix_padded_if_necessary (img : vtkOrientedImageData) (p : Bool) :
    (if p = true then PadLabelmap img.DeepCopy else img).GetImageToWorldMatrix
      = img.GetImageToWorldMatrix := by
  cases p <;> rfl

theorem extractorInput_congr (a b : vtkOrientedImageData) (p : Bool)
    (hty : b.ScalarType = a.ScalarType) (hext : b.Extent = a.Extent)
    (hsc : b.Scalars = a.Scalars) :
    (if p = true then PadLabelmap b.DeepCopy else b).ShallowCopy.SetGeometryFromIdentityMatrix
      = (if p = true then PadLabelmap a.DeepCopy else a).ShallowCopy.SetGeometryFromIdentityMatrix := by
  obtain ⟨ty, ext, sc, o, s, d⟩ := a
  obtain ⟨ty2, ext2, sc2, o2, s2, d2⟩ := b
  simp only at hty hext hsc
  subst hty hext hsc
  cases p <;> rfl

/-! ### Meshes and transforms -/

theorem TransformPoint_Multiply4x4 (T : vtkMatrix4x4) (img : vtkOrientedImageData) (p : Vec3) :
    (T.Multiply4x4 img.GetImageToWorldMatrix).TransformPoint p
      = T.TransformPoint (img.GetImageToWorldMatrix.TransformPoint p) := by
  simp only [vtkMatrix4x4.TransformPoint, vtkMatrix4x4.Multiply4x4,
    vtkOrientedImageData.GetImageToWorldMatrix, Vec3.mk.injEq]
  refine ⟨?_, ?_, ?_⟩ <;> ring

theorem Convert_of_labelmap (self : Rule) (vtk : Collaborators) (w : World)
    (img : vtkOrientedImageData) (t : vtkPolyData)
    (hs : w.source = some (.orientedImageData img)) (ht : w.target = some (.polyData t)) :
    Convert self vtk w = convertLabelmap self vtk w img := by
  unfold Convert
  rw [hs, ht]

theorem transformAndStore_target (w : World) (p : Bool) (l : vtkOrientedImageData)
    (m : vtkMatrix4x4) (s : vtkPolyData) :
    (transformAndStore w p l m s).target = some (.polyData (transformPolyData m s)) := by
  unfold transformAndStore
  cases p <;> simp [recordRun]

theorem convertLabelmap_false_target (self : Rule) (vtk : Collaborators) (w : World)
    (img : vtkOrientedImageData) (h : (convertLabelmap self vtk w img).1 = false) :
    (convertLabelmap self vtk w img).2.target = w.target := by
  revert h
  unfold convertLabelmap
  simp only []
  generalize IsLabelmapPaddingNecessary (some img) = scan
  obtain ⟨p, errs⟩ := scan
  cases p <;> simp only [Bool.false_eq_true, if_false, if_true] <;>
    (split <;> [skip; (split <;> [skip; (split <;> [split; skip])])]) <;>
    simp [reportError, recordRun, transformAndStore]

theorem Convert_false_target (self : Rule) (vtk : Collaborators) (w : World)
    (h : (Convert self vtk w).1 = false) : (Convert self vtk w).2.target = w.target := by
  revert h
  unfold Convert
  split
  · split
    · exact convertLabelmap_false_target self vtk w _
    · intro _; rfl
  · intro _; rfl

/-- The surface stage of `Convert` succeeded with the given extraction output and
the given surface handed to the world transform. -/
theorem convertLabelmap_true (self : Rule) (vtk : Collaborators) (w : World)
    (img : vtkOrientedImageData) (h : (convertLabelmap self vtk w img).1 = true) :
    ∃ extracted surface,
      vtk.marchingCubes marchingCubesSettings
          (if (IsLabelmapPaddingNecessary (some img)).1 = true then PadLabelmap img.DeepCopy
            else img).ShallowCopy.SetGeometryFromIdentityMatrix = .output extracted
      ∧ extracted.GetNumberOfPolys ≠ 0
      ∧ ((0 < vtk.DeserializeFloatingPointConversionParameter
              (self.parameterValue GetDecimationFactorParameterName)
            ∧ vtk.decimatePro (decimateProSettings
                (vtk.DeserializeFloatingPointConversionParameter
                  (self.parameterValue GetDecimationFactorParameterName))) extracted
              = .output surface)
          ∨ (¬ 0 < vtk.DeserializeFloatingPointConversionParameter
                (self.parameterValue GetDecimationFactorParameterName)
            ∧ surface = extracted))
      ∧ (convertLabelmap self vtk w img).2.target
          = some (.polyData (transformPolyData img.GetImageToWorldMatrix surface)) := by
  revert h
  unfold convertLabelmap
  simp only [GetImageToWorldMatrix_padded_if_necessary]
  cases hmc : vtk.marchingCubes marchingCubesSettings
      (if (IsLabelmapPaddingNecessary (some img)).1 = true then PadLabelmap img.DeepCopy
        else img).ShallowCopy.SetGeometryFromIdentityMatrix with
  | threw => simp
  | output m =>
    simp only []
    by_cases hn : m.GetNumberOfPolys = 0
    · simp [hn]
    · by_cases hf : 0 < vtk.DeserializeFloatingPointConversionParameter
          (self.parameterValue GetDecimationFactorParameterName)
      · cases hd : vtk.decimatePro
            (decimateProSettings (vtk.DeserializeFloatingPointConversionParameter
              (self.parameterValue GetDecimationFactorParameterName))) m with
        | threw => simp [hn, hf, hd]
        | output d =>
          intro _
          refine ⟨m, d, rfl, hn, Or.inl ⟨hf, hd⟩, ?_⟩
          simp [hn, hf, hd, transformAndStore_target]
      · intro _
        refine ⟨m, m, rfl, hn, Or.inr ⟨hf, rfl⟩, ?_⟩
        simp [hn, hf, transformAndStore_target]

theorem convertLabelmap_of_surface (self : Rule) (vtk : Collaborators) (w : World)
    (img : vtkOrientedImageData) (extracted surface : vtkPolyData)
    (hmc : vtk.marchingCubes marchingCubesSettings
          (if (IsLabelmapPaddingNecessary (some img)).1 = true then PadLabelmap img.DeepCopy
            else img).ShallowCopy.SetGeometryFromIdentityMatrix = .output extracted)
    (hn : extracted.GetNumberOfPolys ≠ 0)
    (hsurf : (0 < vtk.DeserializeFloatingPointConversionParameter
              (self.parameterValue GetDecimationFactorParameterName)
            ∧ vtk.decimatePro (decimateProSettings
                (vtk.DeserializeFloatingPointConversionParameter
                  (self.parameterValue GetDecimationFactorParameterName))) extracted
              = .output surface)
          ∨ (¬ 0 < vtk.DeserializeFloatingPointConversionParameter
                (self.parameterValue GetDecimationFactorParameterName)
            ∧ surface = extracted)) :
    (convertLabelmap self vtk w img).1 = true
    ∧ (convertLabelmap self vtk w img).2.target
        = some (.polyData (transformPolyData img.GetImageToWorldMatrix surface)) := by
  unfold convertLabelmap
  simp only [GetImageToWorldMatrix_padded_if_necessary, hmc]
  rcases hsurf with ⟨hf, hd⟩ | ⟨hf, rfl⟩
  · simp [hn, hf, hd, transformAndStore_target]
  · simp [hn, hf, transformAndStore_target]

theorem convertLabelmap_frame (self : Rule) (vtk : Collaborators) (w1 w2 : World)
    (img1 img2 : vtkOrientedImageData) (T : vtkMatrix4x4)
    (hty : img2.ScalarType = img1.ScalarType) (hext : img2.Extent = img1.Extent)
    (hsc : img2.Scalars = img1.Scalars)
    (hM : img2.GetImageToWorldMatrix = T.Multiply4x4 img1.GetImageToWorldMatrix)
    (h1 : (convertLabelmap self vtk w1 img1).1 = true) :
    (convertLabelmap self vtk w2 img2).1 = true
    ∧ ∃ m1 m2, (convertLabelmap self vtk w1 img1).2.target = some (.polyData m1)
        ∧ (convertLabelmap self vtk w2 img2).2.target = some (.polyData m2)
        ∧ m2.Polys = m1.Polys ∧ m2.Points = m1.Points.map T.TransformPoint := by
  obtain ⟨extracted, surface, hout, hn, hsurf, htgt⟩ := convertLabelmap_true self vtk w1 img1 h1
  have hout2 := hout
  rw [← IsLabelmapPaddingNecessary_congr img1 img2 hty hext hsc,
    ← extractorInput_congr img1 img2 _ hty hext hsc] at hout2
  obtain ⟨h2, htgt2⟩ := convertLabelmap_of_surface self vtk w2 img2 extracted surface hout2 hn hsurf
  refine ⟨h2, _, _, htgt, htgt2, rfl, ?_⟩
  simp only [transformPolyData, hM, List.map_map]
  apply List.map_congr_left
  intro p _
  exact TransformPoint_Multiply4x4 T img1 p

/-! ### Offsets, source and samples -/

theorem convertLabelmap_source (self : Rule) (vtk : Collaborators) (w : World)
    (img : vtkOrientedImageData) : (convertLabelmap self vtk w img).2.source = w.source := by
  unfold convertLabelmap
  simp only []
  rcases IsLabelmapPaddingNecessary (some img) with ⟨p, errs⟩
  cases p <;> simp only [Bool.false_eq_true, if_false, if_true] <;>
    (split <;> [skip; (split <;> [skip; (split <;> [split; skip])])]) <;>
    simp [reportError, recordRun, transformAndStore]

theorem sampleInterior_agree_on_border (i j k : Int) (hv : sampleInterior.IsVoxel i j k)
    (hface : sampleInterior.OnFace i j k) :
    sampleInteriorOther.voxel i j k = sampleInterior.voxel i j k := by
  obtain ⟨hi0, hi, hj0, hj, hk0, hk⟩ := hv
  have hi2 : i < 3 := hi
  have hj2 : j < 3 := hj
  have hk2 : k < 3 := hk
  interval_cases i <;> interval_cases j <;> interval_cases k <;>
    first
      | rfl
      | exact absurd hface (by decide)

theorem exact_offset_injective (d0 d1 i j k i' j' k' : Int)
    (hi0 : 0 ≤ i) (hi : i < d0) (hj0 : 0 ≤ j) (hj : j < d1) (hk0 : 0 ≤ k)
    (hi0' : 0 ≤ i') (hi' : i' < d0) (hj0' : 0 ≤ j') (hj' : j' < d1) (hk0' : 0 ≤ k')
    (h : i' + j' * d0 + k' * d0 * d1 = i + j * d0 + k * d0 * d1) :
    i' = i ∧ j' = j ∧ k' = k := by
  obtain ⟨a, rfl⟩ := Int.eq_ofNat_of_zero_le hi0
  obtain ⟨b, rfl⟩ := Int.eq_ofNat_of_zero_le hj0
  obtain ⟨c, rfl⟩ := Int.eq_ofNat_of_zero_le hk0
  obtain ⟨a', rfl⟩ := Int.eq_ofNat_of_zero_le hi0'
  obtain ⟨b', rfl⟩ := Int.eq_ofNat_of_zero_le hj0'
  obtain ⟨c', rfl⟩ := Int.eq_ofNat_of_zero_le hk0'
  obtain ⟨A, rfl⟩ := Int.eq_ofNat_of_zero_le (by omega : 0 ≤ d0)
  obtain ⟨B, rfl⟩ := Int.eq_ofNat_of_zero_le (by omega : 0 ≤ d1)
  have ha : a < A := by omega
  have hb : b < B := by omega
  have ha' : a' < A := by omega
  have hb' : b' < B := by omega
  have hn : a' + b' * A + c' * A * B = a + b * A + c * A * B := by exact_mod_cast h
  have e1 : a' = a := by
    have := congrArg (· % A) hn
    simp only [decode_x A B _ _ _ ha', decode_x A B _ _ _ ha] at this
    exact this
  have e2 : b' = b := by
    have := congrArg (fun n => n / A % B) hn
    simp only [decode_y A B _ _ _ ha' hb', decode_y A B _ _ _ ha hb] at this
    exact this
  have e3 : c' = c := by
    have := congrArg (· / (A * B)) hn
    simp only [decode_z A B _ _ _ ha' hb', decode_z A B _ _ _ ha hb] at this
    exact this
  subst e1 e2 e3
  exact ⟨rfl, rfl, rfl⟩

theorem exact_offset_bounds (d0 d1 d2 i j k : Int)
    (hi0 : 0 ≤ i) (hi : i < d0) (hj0 : 0 ≤ j) (hj : j < d1) (hk0 : 0 ≤ k) (hk : k < d2) :
    0 ≤ i + j * d0 + k * d0 * d1 ∧ i + j * d0 + k * d0 * d1 < d0 * d1 * d2 := by
  obtain ⟨a, rfl⟩ := Int.eq_ofNat_of_zero_le hi0
  obtain ⟨b, rfl⟩ := Int.eq_ofNat_of_zero_le hj0
  obtain ⟨c, rfl⟩ := Int.eq_ofNat_of_zero_le hk0
  obtain ⟨A, rfl⟩ := Int.eq_ofNat_of_zero_le (by omega : 0 ≤ d0)
  obtain ⟨B, rfl⟩ := Int.eq_ofNat_of_zero_le (by omega : 0 ≤ d1)
  obtain ⟨C, rfl⟩ := Int.eq_ofNat_of_zero_le (by omega : 0 ≤ d2)
  have h := offset_lt A B C a b c (by omega) (by omega) (by omega)
  constructor
  · positivity
  · exact_mod_cast h

theorem convertLabelmap_false_cases (self : Rule) (vtk : Collaborators) (w : World)
    (img : vtkOrientedImageData) (h : (convertLabelmap self vtk w img).1 = false) :
    (∀ matrix surface, FilterRun.transformPolyData matrix surface
        ∉ runsOfCall w (convertLabelmap self vtk w img).2)
    ∧ (vtk.marchingCubes marchingCubesSettings
          (if (IsLabelmapPaddingNecessary (some img)).1 = true then PadLabelmap img.DeepCopy
            else img).ShallowCopy.SetGeometryFromIdentityMatrix = .threw
      ∨ ∃ m, vtk.marchingCubes marchingCubesSettings
            (if (IsLabelmapPaddingNecessary (some img)).1 = true then PadLabelmap img.DeepCopy
              else img).ShallowCopy.SetGeometryFromIdentityMatrix = .output m
          ∧ (m.GetNumberOfPolys = 0
            ∨ (0 < vtk.DeserializeFloatingPointConversionParameter
                    (self.parameterValue GetDecimationFactorParameterName)
                ∧ vtk.decimatePro (decimateProSettings
                    (vtk.DeserializeFloatingPointConversionParameter
                      (self.parameterValue GetDecimationFactorParameterName))) m = .threw))) := by
  revert h
  unfold convertLabelmap
  simp only []
  cases hmc : vtk.marchingCubes marchingCubesSettings
      (if (IsLabelmapPaddingNecessary (some img)).1 = true then PadLabelmap img.DeepCopy
        else img).ShallowCopy.SetGeometryFromIdentityMatrix with
  | threw =>
    intro _
    rcases IsLabelmapPaddingNecessary (some img) with ⟨p, errs⟩
    cases p <;> simp [reportError, recordRun, runsOfCall, padRun]
  | output m =>
    simp only []
    by_cases hn : m.GetNumberOfPolys = 0
    · intro _
      rcases IsLabelmapPaddingNecessary (some img) with ⟨p, errs⟩
      cases p <;> simp [hn, reportError, recordRun, runsOfCall, padRun]
    · by_cases hf : 0 < vtk.DeserializeFloatingPointConversionParameter
          (self.parameterValue GetDecimationFactorParameterName)
      · cases hd : vtk.decimatePro
            (decimateProSettings (vtk.DeserializeFloatingPointConversionParameter
              (self.parameterValue GetDecimationFactorParameterName))) m with
        | threw =>
          intro _
          rcases IsLabelmapPaddingNecessary (some img) with ⟨p, errs⟩
          cases p <;> simp [hn, hf, hd, reportError, recordRun, runsOfCall, padRun]
        | output d => simp [hn, hf, hd]
      · simp [hn, hf]

/-! ### Volumes beyond the `int` range and open surfaces -/

theorem spikeBuffer_length (a b : Nat) : (spikeBuffer a b).length = a + b + 1 := by
  simp [spikeBuffer]
  omega

theorem spikeBuffer_getD (a b n : Nat) :
    (spikeBuffer a b).getD n 0 = if n = a then 1 else 0 := by
  unfold spikeBuffer
  rw [List.getD_eq_getElem?_getD]
  rcases Nat.lt_trichotomy n a with h | h | h
  · rw [List.getElem?_append_left (by simpa using h), if_neg (by omega)]
    simp [List.getElem?_replicate, h]
  · subst h
    rw [List.getElem?_append_right (by simp)]
    simp
  · rw [List.getElem?_append_right (by simp; omega), if_neg (by omega)]
    simp only [List.length_replicate]
    obtain ⟨m, hm⟩ : ∃ m, n - a = m + 1 := ⟨n - a - 1, by omega⟩
    rw [hm, List.getElem?_cons_succ]
    by_cases hb : m < b
    · simp [List.getElem?_replicate, hb]
    · simp [List.getElem?_replicate, hb]

theorem readScalar_spikeBuffer (a b : Nat) (o : Int) :
    readScalar (spikeBuffer a b) o = if o = (a : Int) then 1 else 0 := by
  unfold readScalar
  by_cases h : o < 0
  · rw [if_pos h, if_neg (by omega)]
  · rw [if_neg h, spikeBuffer_getD]
    by_cases e : o = (a : Int)
    · rw [if_pos e, if_pos (by omega)]
    · rw [if_neg e, if_neg (by omega)]

theorem readScalar_replicate_zero (n : Nat) (o : Int) :
    readScalar (List.replicate n 0) o = 0 := by
  unfold readScalar
  by_cases h : o < 0
  · rw [if_pos h]
  · rw [if_neg h, List.getD_eq_getElem?_getD]
    by_cases hb : o.toNat < n
    · simp [List.getElem?_replicate, hb]
    · simp [List.getElem?_replicate, hb]

theorem borderVoxelValue_unsigned_char (img : vtkOrientedImageData) (d0 d1 i j k : Int)
    (h : img.ScalarType = VTK_UNSIGNED_CHAR) :
    borderVoxelValue img d0 d1 i j k = readScalar img.Scalars (voxelOffset d0 d1 i j k) := by
  unfold borderVoxelValue
  rw [if_pos h]

theorem scanBorder_false_of_reads (img : vtkOrientedImageData)
    (h : ∀ i j k : Nat, i < img.GetDimensions.1.toNat → j < img.GetDimensions.2.1.toNat →
      k < img.GetDimensions.2.2.toNat →
      borderVoxelValue img img.GetDimensions.1 img.GetDimensions.2.1 i j k = 0) :
    scanBorder img = false := by
  rw [Bool.eq_false_iff]
  intro hs
  unfold scanBorder at hs
  simp only [List.any_eq_true, List.mem_range] at hs
  obtain ⟨i, hi, j, hj, k, hk, hv⟩ := hs
  rw [h i j k hi hj hk] at hv
  split at hv
  · exact absurd hv (by simp)
  · exact absurd hv (by simp)

theorem scanBorder_true_of_read (img : vtkOrientedImageData) (i j k : Nat)
    (hi : i < img.GetDimensions.1.toNat) (hj : j < img.GetDimensions.2.1.toNat)
    (hk : k < img.GetDimensions.2.2.toNat) (hface : (i : Int) = 0)
    (hv : borderVoxelValue img img.GetDimensions.1 img.GetDimensions.2.1 i j k ≠ 0) :
    scanBorder img = true := by
  unfold scanBorder
  simp only [List.any_eq_true, List.mem_range]
  refine ⟨i, hi, j, hj, k, hk, ?_⟩
  rw [if_neg (fun hc => hc.1 hface)]
  simpa using hv

theorem sampleHuge_offset_ne (i j k : Nat) (hi : i < 32768) (hj : j < 32768) (hk : k < 3) :
    voxelOffset 32768 32768 i j k ≠ 2147483648 := by
  unfold voxelOffset wrapInt32
  interval_cases k <;> omega

theorem scanBorder_sampleHuge : scanBorder sampleHuge = false := by
  apply scanBorder_false_of_reads
  intro i j k hi hj hk
  have hd : sampleHuge.GetDimensions = (32768, 32768, 3) := by decide
  rw [hd] at hi hj hk ⊢
  rw [borderVoxelValue_unsigned_char _ _ _ _ _ _ rfl]
  show readScalar (spikeBuffer 2147483648 1073741823) _ = 0
  rw [readScalar_spikeBuffer, if_neg]
  exact sampleHuge_offset_ne i j k (by simpa using hi) (by simpa using hj) (by simpa using hk)

theorem voxel_sampleHuge : sampleHuge.voxel 0 0 2 = 1 := by
  have hd : sampleHuge.GetDimensions = (32768, 32768, 3) := by decide
  unfold vtkOrientedImageData.voxel
  rw [hd]
  show readScalar (spikeBuffer 2147483648 1073741823) _ = 1
  rw [readScalar_spikeBuffer, if_pos (by decide)]

theorem scanBorder_sampleLongBackground : scanBorder sampleLongBackground = false := by
  apply scanBorder_false_of_reads
  intro i j k _ _ _
  rw [borderVoxelValue_unsigned_char _ _ _ _ _ _ rfl]
  exact readScalar_replicate_zero _ _

theorem voxel_sampleLongBackground (i j k : Int) : sampleLongBackground.voxel i j k = 0 :=
  readScalar_replicate_zero _ _

theorem scanBorder_sampleLongInterior : scanBorder sampleLongInterior = true := by
  have hd : sampleLongInterior.GetDimensions = (3, 3, 1073741824) := by decide
  apply scanBorder_true_of_read sampleLongInterior 0 1 954437178
  · rw [hd]; decide
  · rw [hd]; decide
  · rw [hd]; decide
  · rfl
  · rw [hd, borderVoxelValue_unsigned_char _ _ _ _ _ _ rfl]
    show readScalar (spikeBuffer 13 9663676402) _ ≠ 0
    rw [readScalar_spikeBuffer, if_pos (by decide)]
    decide

theorem voxel_sampleLongInterior_face (i j k : Int) (hv : sampleLongInterior.IsVoxel i j k)
    (hface : sampleLongInterior.OnFace i j k) : sampleLongInterior.voxel i j k = 0 := by
  have hd : sampleLongInterior.GetDimensions = (3, 3, 1073741824) := by decide
  unfold vtkOrientedImageData.IsVoxel at hv
  unfold vtkOrientedImageData.OnFace at hface
  unfold vtkOrientedImageData.voxel
  rw [hd] at hv hface ⊢
  show readScalar (spikeBuffer 13 9663676402) _ = 0
  rw [readScalar_spikeBuffer, if_neg]
  simp only at hv hface ⊢
  omega

theorem scanBorder_PadLabelmap_sampleColumn :
    scanBorder (PadLabelmap sampleColumn) = true := by
  have hd : (PadLabelmap sampleColumn).GetDimensions = (3, 3, 1073741824) := by decide
  have hvox : (PadLabelmap sampleColumn).voxel 1 1 1 = 1 := by
    have hs : sampleColumn.Scalars = spikeBuffer 0 1073741821 := rfl
    rw [voxel_PadLabelmap sampleColumn 1 1 1 (by decide), if_pos (by decide)]
    unfold vtkOrientedImageData.voxelAtIndex vtkOrientedImageData.voxel
    rw [hs, readScalar_spikeBuffer, if_pos (by decide)]
  apply scanBorder_true_of_read (PadLabelmap sampleColumn) 0 1 954437178
  · rw [hd]; decide
  · rw [hd]; decide
  · rw [hd]; decide
  · rfl
  · rw [borderVoxelValue_unsigned_char _ _ _ _ _ _ rfl, hd]
    have ho : voxelOffset 3 3 ((0 : Nat) : Int) ((1 : Nat) : Int) ((954437178 : Nat) : Int)
        = 1 + 1 * 3 + 1 * 3 * 3 := by decide
    rw [ho]
    unfold vtkOrientedImageData.voxel at hvox
    rw [hd] at hvox
    rw [hvox]
    decide

theorem IsLabelmapPaddingNecessary_of_supported (img : vtkOrientedImageData)
    (hT : img.SupportedScalarType) :
    IsLabelmapPaddingNecessary (some img) = (scanBorder img, []) := by
  unfold vtkOrientedImageData.SupportedScalarType at hT
  simp only [IsLabelmapPaddingNecessary]
  rw [if_neg (by tauto)]

theorem convertLabelmap_extractor_run (self : Rule) (vtk : Collaborators) (w : World)
    (img : vtkOrientedImageData) :
    FilterRun.marchingCubes marchingCubesSettings
        (if (IsLabelmapPaddingNecessary (some img)).1 = true then PadLabelmap img.DeepCopy
          else img).ShallowCopy.SetGeometryFromIdentityMatrix
      ∈ runsOfCall w (convertLabelmap self vtk w img).2
    ∧ ((IsLabelmapPaddingNecessary (some img)).1 = false →
        ∀ input e, FilterRun.constantPad input e
          ∉ runsOfCall w (convertLabelmap self vtk w img).2) := by
  unfold convertLabelmap
  simp only []
  rcases IsLabelmapPaddingNecessary (some img) with ⟨p, errs⟩
  cases p <;> simp only [Bool.false_eq_true, if_false, if_true] <;>
    (split <;> [skip; (split <;> [skip; (split <;> [split; skip])])]) <;>
    simp [reportError, recordRun, transformAndStore, runsOfCall, padRun]

/-! ### Within the `int` range -/

/-- Border scan within the `int` range: for a volume of a supported scalar
encoding whose voxel count fits a C `int`, `IsLabelmapPaddingNecessary` returns
true if and only if some voxel on one of the six faces is non-zero; in
particular it returns false when every non-zero voxel is strictly interior on
all three axes. -/
theorem IsLabelmapPaddingNecessary_iff_border_foreground (img : vtkOrientedImageData)
    (hT : img.SupportedScalarType) (hfit : img.VoxelCountFitsInt) :
    ((IsLabelmapPaddingNecessary (some img)).1 = true ↔
        ∃ i j k : Int, img.IsVoxel i j k
          ∧ (i = 0 ∨ i = img.GetDimensions.1 - 1 ∨ j = 0 ∨ j = img.GetDimensions.2.1 - 1
              ∨ k = 0 ∨ k = img.GetDimensions.2.2 - 1)
          ∧ img.voxel i j k ≠ 0)
    ∧ ((∀ i j k : Int, img.IsVoxel i j k → img.voxel i j k ≠ 0 →
          0 < i ∧ i < img.GetDimensions.1 - 1 ∧ 0 < j ∧ j < img.GetDimensions.2.1 - 1
            ∧ 0 < k ∧ k < img.GetDimensions.2.2 - 1) →
        (IsLabelmapPaddingNecessary (some img)).1 = false) := by
  have hscan : (IsLabelmapPaddingNecessary (some img)).1 = scanBorder img :=
    IsLabelmapPaddingNecessary_supported img hT
  rw [hscan]
  refine ⟨scanBorder_iff img hT hfit, fun hint => ?_⟩
  cases hb : scanBorder img with
  | false => rfl
  | true =>
    obtain ⟨i, j, k, hv, hface, hne⟩ := (scanBorder_iff img hT hfit).1 hb
    have h := hint i j k hv hne
    unfold vtkOrientedImageData.OnFace at hface
    omega

/-- The border scan characterisation on the 2x2x1 volume with a border voxel
set. -/
theorem IsLabelmapPaddingNecessary_iff_border_foreground_witness :
    sampleBorder.SupportedScalarType ∧ sampleBorder.VoxelCountFitsInt
    ∧ (((IsLabelmapPaddingNecessary (some sampleBorder)).1 = true ↔
        ∃ i j k : Int, sampleBorder.IsVoxel i j k
          ∧ (i = 0 ∨ i = sampleBorder.GetDimensions.1 - 1 ∨ j = 0
              ∨ j = sampleBorder.GetDimensions.2.1 - 1
              ∨ k = 0 ∨ k = sampleBorder.GetDimensions.2.2 - 1)
          ∧ sampleBorder.voxel i j k ≠ 0)
      ∧ ((∀ i j k : Int, sampleBorder.IsVoxel i j k → sampleBorder.voxel i j k ≠ 0 →
          0 < i ∧ i < sampleBorder.GetDimensions.1 - 1 ∧ 0 < j
            ∧ j < sampleBorder.GetDimensions.2.1 - 1
            ∧ 0 < k ∧ k < sampleBorder.GetDimensions.2.2 - 1) →
        (IsLabelmapPaddingNecessary (some sampleBorder)).1 = false)) :=
  ⟨Or.inl rfl, by decide,
    IsLabelmapPaddingNecessary_iff_border_foreground sampleBorder (Or.inl rfl)
      (by decide)⟩

/-- Extractor input within the `int` range: for a source volume of a supported
scalar encoding whose voxel count fits a C `int`, the volume `Convert` hands to
the iso-surface extractor has only background voxels on its boundary shell;
`Convert` runs the pad filter exactly when `IsLabelmapPaddingNecessary` is true
on the source; and `IsLabelmapPaddingNecessary` is false on the result of
`PadLabelmap` for every volume whose padded voxel count fits a C `int`. -/
theorem Convert_extractor_input_border_is_background (self : Rule) (vtk : Collaborators)
    (w : World) (img : vtkOrientedImageData) (t : vtkPolyData)
    (hs : w.source = some (.orientedImageData img)) (ht : w.target = some (.polyData t))
    (hT : img.SupportedScalarType) (hfit : img.VoxelCountFitsInt) :
    ((∃ input, FilterRun.marchingCubes marchingCubesSettings input
          ∈ runsOfCall w (Convert self vtk w).2)
      ∧ ∀ settings input, FilterRun.marchingCubes settings input
          ∈ runsOfCall w (Convert self vtk w).2 → input.BorderIsBackground)
    ∧ ((∃ input e, FilterRun.constantPad input e ∈ runsOfCall w (Convert self vtk w).2)
        ↔ (IsLabelmapPaddingNecessary (some img)).1 = true)
    ∧ (∀ v : vtkOrientedImageData, (PadLabelmap v).VoxelCountFitsInt →
        (IsLabelmapPaddingNecessary (some (PadLabelmap v))).1 = false) := by
  have hpad := BorderIsBackground_identityGeometry _ (PadLabelmap_border img)
  have hnopad := fun h => BorderIsBackground_identityGeometry _
    (BorderIsBackground_of_scan_false img hT hfit h)
  refine ⟨?_, ?_, fun v hv => IsLabelmapPaddingNecessary_PadLabelmap v hv⟩
  all_goals
    rw [Convert_of_labelmap self vtk w img t hs ht]
    unfold convertLabelmap
    simp only []
    rcases hscan : IsLabelmapPaddingNecessary (some img) with ⟨p, errs⟩
    rw [hscan] at hnopad
    cases p <;> simp only [Bool.false_eq_true, if_false, if_true] <;>
      (split <;> [skip; (split <;> [skip; (split <;> [split; skip])])]) <;>
      simp [reportError, recordRun, transformAndStore, runsOfCall, padRun]
  all_goals first
    | exact hpad
    | exact hnopad rfl

/-- The extractor input on the 2x2x1 volume with a border voxel set. -/
theorem Convert_extractor_input_border_is_background_witness :
    sampleBorder.SupportedScalarType ∧ sampleBorder.VoxelCountFitsInt
    ∧ (∀ settings input, FilterRun.marchingCubes settings input
        ∈ runsOfCall (sampleWorld sampleBorder)
            (Convert Rule.new sampleCollaborators (sampleWorld sampleBorder)).2 →
          input.BorderIsBackground) :=
  ⟨Or.inl rfl, by decide,
    (Convert_extractor_input_border_is_background Rule.new sampleCollaborators
      (sampleWorld sampleBorder) sampleBorder samplePriorMesh rfl rfl (Or.inl rfl)
      (by decide)).1.2⟩

/-- Border scan within the `int` range: two volumes of the same supported scalar
encoding and the same dimensions, with a voxel count fitting a C `int`, that
agree on every voxel lying on one of the six faces give the same result of
`IsLabelmapPaddingNecessary`, whatever their strictly interior voxels hold. -/
theorem IsLabelmapPaddingNecessary_depends_on_border_only (a b : vtkOrientedImageData)
    (hT : a.SupportedScalarType) (hty : b.ScalarType = a.ScalarType)
    (hdim : b.GetDimensions = a.GetDimensions) (hfit : a.VoxelCountFitsInt)
    (hagree : ∀ i j k : Int, a.IsVoxel i j k → a.OnFace i j k → b.voxel i j k = a.voxel i j k) :
    IsLabelmapPaddingNecessary (some b) = IsLabelmapPaddingNecessary (some a) := by
  have hTb : b.SupportedScalarType := by
    unfold vtkOrientedImageData.SupportedScalarType at hT ⊢
    rw [hty]
    exact hT
  have hfitb : b.VoxelCountFitsInt := by
    unfold vtkOrientedImageData.VoxelCountFitsInt at hfit ⊢
    rw [hdim]
    exact hfit
  have hscan : scanBorder b = scanBorder a := by
    rw [Bool.eq_iff_iff, scanBorder_iff a hT hfit, scanBorder_iff b hTb hfitb]
    constructor
    · rintro ⟨i, j, k, hv, hface, hne⟩
      have hva : a.IsVoxel i j k := by
        unfold vtkOrientedImageData.IsVoxel at hv ⊢
        rw [← hdim]
        exact hv
      have hfa : a.OnFace i j k := by
        unfold vtkOrientedImageData.OnFace at hface ⊢
        rw [← hdim]
        exact hface
      exact ⟨i, j, k, hva, hfa, by rw [← hagree i j k hva hfa]; exact hne⟩
    · rintro ⟨i, j, k, hv, hface, hne⟩
      have hvb : b.IsVoxel i j k := by
        unfold vtkOrientedImageData.IsVoxel at hv ⊢
        rw [hdim]
        exact hv
      have hfb : b.OnFace i j k := by
        unfold vtkOrientedImageData.OnFace at hface ⊢
        rw [hdim]
        exact hface
      exact ⟨i, j, k, hvb, hfb, by rw [hagree i j k hv hface]; exact hne⟩
  unfold vtkOrientedImageData.SupportedScalarType at hT hTb
  simp only [IsLabelmapPaddingNecessary]
  rw [if_neg (by tauto), if_neg (by tauto), hscan]

/-- The scan on two 3x3x3 volumes that differ in the centre voxel only. -/
theorem IsLabelmapPaddingNecessary_depends_on_border_only_witness :
    sampleInteriorOther.voxel 1 1 1 ≠ sampleInterior.voxel 1 1 1
    ∧ IsLabelmapPaddingNecessary (some sampleInteriorOther)
        = IsLabelmapPaddingNecessary (some sampleInterior) :=
  ⟨by decide,
    IsLabelmapPaddingNecessary_depends_on_border_only sampleInterior sampleInteriorOther
      (Or.inl rfl) rfl rfl (by decide) sampleInterior_agree_on_border⟩

/-! ### Claims -/

/-- C1, failing input: on the 32768x32768x3 `unsigned char` volume whose only
foreground voxel has loop indices (0,0,2), on the face `k = dim2 - 1`, the `int`
product `2*32768*32768` of the offset wraps to `-2^31`, the scan does not read
the voxel, and `IsLabelmapPaddingNecessary` returns false. On the 3x3x2^30
volume whose only foreground voxel is the interior voxel (1,1,1) the wrapped
offset of the face index (0,1,954437178) is 13, the offset of that interior
voxel, and `IsLabelmapPaddingNecessary` returns true. -/
theorem IsLabelmapPaddingNecessary_overflow_misses_face_voxel :
    sampleHuge.SupportedScalarType
    ∧ (sampleHuge.Scalars.length : Int)
        = sampleHuge.GetDimensions.1 * sampleHuge.GetDimensions.2.1 * sampleHuge.GetDimensions.2.2
    ∧ sampleHuge.IsVoxel 0 0 2 ∧ sampleHuge.OnFace 0 0 2 ∧ sampleHuge.voxel 0 0 2 ≠ 0
    ∧ voxelOffset 32768 32768 0 0 2 = -2147483648
    ∧ (IsLabelmapPaddingNecessary (some sampleHuge)).1 = false
    ∧ sampleLongInterior.SupportedScalarType
    ∧ (∀ i j k : Int, sampleLongInterior.IsVoxel i j k → sampleLongInterior.OnFace i j k →
        sampleLongInterior.voxel i j k = 0)
    ∧ voxelOffset 3 3 0 1 954437178 = 13
    ∧ (IsLabelmapPaddingNecessary (some sampleLongInterior)).1 = true := by
  refine ⟨by decide, ?_, by decide, by decide, ?_, by decide, ?_, by decide,
    voxel_sampleLongInterior_face, by decide, ?_⟩
  · have hd : sampleHuge.GetDimensions = (32768, 32768, 3) := by decide
    have hs : sampleHuge.Scalars = spikeBuffer 2147483648 1073741823 := rfl
    rw [hd, hs, spikeBuffer_length]
    decide
  · rw [voxel_sampleHuge]
    decide
  · rw [IsLabelmapPaddingNecessary_supported sampleHuge (by decide)]
    exact scanBorder_sampleHuge
  · rw [IsLabelmapPaddingNecessary_supported sampleLongInterior (by decide)]
    exact scanBorder_sampleLongInterior

/-- C2: on a volume whose scalar encoding is none of the three supported ones,
`IsLabelmapPaddingNecessary` reports the scalar type error and returns false,
whatever the voxels hold. -/
theorem IsLabelmapPaddingNecessary_unsupported (img : vtkOrientedImageData)
    (hT : ¬ img.SupportedScalarType) :
    IsLabelmapPaddingNecessary (some img) = (false, [scalarTypeError]) := by
  unfold vtkOrientedImageData.SupportedScalarType at hT
  simp only [IsLabelmapPaddingNecessary]
  rw [if_pos (by tauto)]

/-- Witness of C2 on a `float` volume with a non-zero border voxel. -/
theorem IsLabelmapPaddingNecessary_unsupported_witness :
    ¬ sampleFloat.SupportedScalarType ∧ sampleFloat.voxel 0 0 0 ≠ 0
    ∧ IsLabelmapPaddingNecessary (some sampleFloat) = (false, [scalarTypeError]) :=
  ⟨by decide, by decide,
    IsLabelmapPaddingNecessary_unsupported sampleFloat
      (by decide)⟩

/-- C3, counterexample: on a `float` volume with a foreground voxel `Convert`
reports the scalar type error, yet returns true and replaces the prior contents
of the target. -/
theorem Convert_float_volume_overwrites_target :
    ¬ sampleFloatInterior.SupportedScalarType
    ∧ (Convert Rule.new sampleCollaborators (sampleWorld sampleFloatInterior)).1 = true
    ∧ (Convert Rule.new sampleCollaborators (sampleWorld sampleFloatInterior)).2.target
        ≠ (sampleWorld sampleFloatInterior).target
    ∧ scalarTypeError
        ∈ (Convert Rule.new sampleCollaborators (sampleWorld sampleFloatInterior)).2.errors := by
  refine ⟨?_, ?_, ?_, ?_⟩
  · decide
  · with_unfolding_all decide
  · with_unfolding_all decide
  · with_unfolding_all decide

/-- C3, amended: on a source volume with an unsupported scalar encoding `Convert`
reports the scalar type error and does no padding; it returns failure exactly
when the extraction (on the unpadded volume) throws or yields zero faces, or the
decimation factor is positive and the decimation throws, and whenever it
returns failure the target keeps its prior contents; otherwise it returns
success and overwrites the target with the surface (the extraction output, or
the decimation output under a positive factor) mapped through the
image-to-world matrix of the source. -/
theorem Convert_unsupported_scalar_type (self : Rule) (vtk : Collaborators) (w : World)
    (img : vtkOrientedImageData) (t : vtkPolyData)
    (hs : w.source = some (.orientedImageData img)) (ht : w.target = some (.polyData t))
    (hT : ¬ img.SupportedScalarType) :
    (∃ later, (Convert self vtk w).2.errors = w.errors ++ scalarTypeError :: later)
    ∧ (∀ input e, FilterRun.constantPad input e ∉ runsOfCall w (Convert self vtk w).2)
    ∧ ((Convert self vtk w).1 = false ↔
        (vtk.marchingCubes marchingCubesSettings img.ShallowCopy.SetGeometryFromIdentityMatrix
            = .threw
          ∨ ∃ m, vtk.marchingCubes marchingCubesSettings
                img.ShallowCopy.SetGeometryFromIdentityMatrix = .output m
              ∧ (m.GetNumberOfPolys = 0
                ∨ (0 < vtk.DeserializeFloatingPointConversionParameter
                        (self.parameterValue GetDecimationFactorParameterName)
                    ∧ vtk.decimatePro
                        (decimateProSettings (vtk.DeserializeFloatingPointConversionParameter
                          (self.parameterValue GetDecimationFactorParameterName))) m = .threw))))
    ∧ ((Convert self vtk w).1 = false → (Convert self vtk w).2.target = w.target)
    ∧ ((Convert self vtk w).1 = true →
        ∃ extracted surface,
          vtk.marchingCubes marchingCubesSettings
              img.ShallowCopy.SetGeometryFromIdentityMatrix = .output extracted
          ∧ ((0 < vtk.DeserializeFloatingPointConversionParameter
                  (self.parameterValue GetDecimationFactorParameterName)
                ∧ vtk.decimatePro (decimateProSettings
                    (vtk.DeserializeFloatingPointConversionParameter
                      (self.parameterValue GetDecimationFactorParameterName))) extracted
                  = .output surface)
              ∨ (¬ 0 < vtk.DeserializeFloatingPointConversionParameter
                    (self.parameterValue GetDecimationFactorParameterName)
                ∧ surface = extracted))
          ∧ (Convert self vtk w).2.target
              = some (.polyData
                  { Points := surface.Points.map img.GetImageToWorldMatrix.TransformPoint
                    Polys := surface.Polys })) := by
  have hfirst : (∃ later, (Convert self vtk w).2.errors = w.errors ++ scalarTypeError :: later)
      ∧ (∀ input e, FilterRun.constantPad input e ∉ runsOfCall w (Convert self vtk w).2)
      ∧ ((Convert self vtk w).1 = false ↔
          (vtk.marchingCubes marchingCubesSettings img.ShallowCopy.SetGeometryFromIdentityMatrix
              = .threw
            ∨ ∃ m, vtk.marchingCubes marchingCubesSettings
                  img.ShallowCopy.SetGeometryFromIdentityMatrix = .output m
                ∧ (m.GetNumberOfPolys = 0
                  ∨ (0 < vtk.DeserializeFloatingPointConversionParameter
                          (self.parameterValue GetDecimationFactorParameterName)
                      ∧ vtk.decimatePro
                          (decimateProSettings (vtk.DeserializeFloatingPointConversionParameter
                            (self.parameterValue GetDecimationFactorParameterName))) m
                        = .threw)))) := by
    refine ⟨?_, ?_, ?_⟩
    all_goals
      rw [Convert_of_labelmap self vtk w img t hs ht]
      unfold convertLabelmap
      simp only [IsLabelmapPaddingNecessary_of_unsupported img hT, Bool.false_eq_true, if_false]
      cases hmc : vtk.marchingCubes marchingCubesSettings
        img.ShallowCopy.SetGeometryFromIdentityMatrix with
      | threw => simp [reportError, recordRun, runsOfCall]
      | output m =>
        simp only []
        by_cases hn : m.GetNumberOfPolys = 0
        · simp [hn, reportError, recordRun, runsOfCall]
        · by_cases hf : 0 < vtk.DeserializeFloatingPointConversionParameter
              (self.parameterValue GetDecimationFactorParameterName)
          · cases hd : vtk.decimatePro
                (decimateProSettings (vtk.DeserializeFloatingPointConversionParameter
                  (self.parameterValue GetDecimationFactorParameterName))) m with
            | threw => simp [hn, hf, hd, reportError, recordRun, runsOfCall]
            | output d =>
              simp [hn, hf, hd, reportError, recordRun, runsOfCall, transformAndStore]
          · simp [hn, hf, reportError, recordRun, runsOfCall, transformAndStore]
  refine ⟨hfirst.1, hfirst.2.1, hfirst.2.2, Convert_false_target self vtk w, fun hret => ?_⟩
  rw [Convert_of_labelmap self vtk w img t hs ht] at hret ⊢
  obtain ⟨extracted, surface, hout, _, hsurf, htgt⟩ := convertLabelmap_true self vtk w img hret
  simp only [IsLabelmapPaddingNecessary_of_unsupported img hT, Bool.false_eq_true,
    if_false] at hout
  exact ⟨extracted, surface, hout, hsurf, htgt⟩

/-- Witness of the amended C3 on the `float` sample volume: the call succeeds and
the target is overwritten. -/
theorem Convert_unsupported_scalar_type_witness :
    (sampleWorld sampleFloatInterior).source = some (.orientedImageData sampleFloatInterior)
    ∧ (sampleWorld sampleFloatInterior).target = some (.polyData samplePriorMesh)
    ∧ ¬ sampleFloatInterior.SupportedScalarType
    ∧ (∃ later, (Convert Rule.new sampleCollaborators (sampleWorld sampleFloatInterior)).2.errors
        = (sampleWorld sampleFloatInterior).errors ++ scalarTypeError :: later)
    ∧ (Convert Rule.new sampleCollaborators (sampleWorld sampleFloatInterior)).1 = true
    ∧ (∃ extracted surface,
        sampleCollaborators.marchingCubes marchingCubesSettings
            sampleFloatInterior.ShallowCopy.SetGeometryFromIdentityMatrix = .output extracted
        ∧ ((0 < sampleCollaborators.DeserializeFloatingPointConversionParameter
                (Rule.new.parameterValue GetDecimationFactorParameterName)
              ∧ sampleCollaborators.decimatePro (decimateProSettings
                  (sampleCollaborators.DeserializeFloatingPointConversionParameter
                    (Rule.new.parameterValue GetDecimationFactorParameterName))) extracted
                = .output surface)
            ∨ (¬ 0 < sampleCollaborators.DeserializeFloatingPointConversionParameter
                  (Rule.new.parameterValue GetDecimationFactorParameterName)
              ∧ surface = extracted))
        ∧ (Convert Rule.new sampleCollaborators (sampleWorld sampleFloatInterior)).2.target
            = some (.polyData
                { Points := surface.Points.map
                    sampleFloatInterior.GetImageToWorldMatrix.TransformPoint
                  Polys := surface.Polys })) :=
  ⟨rfl, rfl, by decide,
    (Convert_unsupported_scalar_type Rule.new sampleCollaborators
      (sampleWorld sampleFloatInterior) sampleFloatInterior samplePriorMesh rfl rfl
      (by decide)).1,
    by with_unfolding_all decide,
    (Convert_unsupported_scalar_type Rule.new sampleCollaborators
      (sampleWorld sampleFloatInterior) sampleFloatInterior samplePriorMesh rfl rfl
      (by decide)).2.2.2.2 (by with_unfolding_all decide)⟩

/-- C4: if the source is not an oriented image, or the target is not a polygonal
mesh, `Convert` returns false at once: no filter is run, no temporary is
created, and target and source are what they were before the call. -/
theorem Convert_type_mismatch (self : Rule) (vtk : Collaborators) (w : World)
    (h : (∀ img, w.source ≠ some (.orientedImageData img))
      ∨ (∀ mesh, w.target ≠ some (.polyData mesh))) :
    (Convert self vtk w).1 = false
    ∧ (Convert self vtk w).2.target = w.target
    ∧ (Convert self vtk w).2.source = w.source
    ∧ (Convert self vtk w).2.temporaries = w.temporaries
    ∧ (Convert self vtk w).2.runs = w.runs := by
  unfold Convert
  rcases h with h | h
  · split
    · rename_i img hsrc
      exact absurd hsrc (h img)
    · simp [reportError]
  · split
    · split
      · rename_i m htgt
        exact absurd htgt (h m)
      · simp [reportError]
    · simp [reportError]

/-- Witness of C4: a source that is a mesh, and a null target. -/
theorem Convert_type_mismatch_witness :
    (∀ img, sampleWrongSourceWorld.source ≠ some (.orientedImageData img))
    ∧ (Convert Rule.new sampleCollaborators sampleWrongSourceWorld).1 = false
    ∧ (Convert Rule.new sampleCollaborators sampleWrongSourceWorld).2.target
        = sampleWrongSourceWorld.target
    ∧ (∀ mesh, sampleNullTargetWorld.target ≠ some (.polyData mesh))
    ∧ (Convert Rule.new sampleCollaborators sampleNullTargetWorld).1 = false
    ∧ (Convert Rule.new sampleCollaborators sampleNullTargetWorld).2.target
        = sampleNullTargetWorld.target :=
  ⟨(fun _ h => by cases h),
    (Convert_type_mismatch Rule.new sampleCollaborators sampleWrongSourceWorld
      (Or.inl (fun _ h => by cases h))).1,
    (Convert_type_mismatch Rule.new sampleCollaborators sampleWrongSourceWorld
      (Or.inl (fun _ h => by cases h))).2.1,
    (fun _ h => by cases h),
    (Convert_type_mismatch Rule.new sampleCollaborators sampleNullTargetWorld
      (Or.inr (fun _ h => by cases h))).1,
    (Convert_type_mismatch Rule.new sampleCollaborators sampleNullTargetWorld
      (Or.inr (fun _ h => by cases h))).2.1⟩

/-- C5, failing input: a one-voxel `short` volume holding -1 needs padding, the
extraction of the padded copy yields zero faces, `Convert` returns false, and
the padded copy is still among the live temporaries, of which there were none
before the call. The same happens on the padded 2x2x1 sample volume when the
extractor throws and when the decimator throws; only the call that returns
true ends with the temporaries it started with. -/
theorem Convert_zero_faces_keeps_padded_copy :
    (IsLabelmapPaddingNecessary (some sampleShortNegative)).1 = true
    ∧ (Convert Rule.new sampleCollaborators (sampleWorld sampleShortNegative)).1 = false
    ∧ (sampleWorld sampleShortNegative).temporaries = []
    ∧ (Convert Rule.new sampleCollaborators (sampleWorld sampleShortNegative)).2.temporaries
        = [PadLabelmap sampleShortNegative]
    ∧ (Convert Rule.new sampleThrowingExtractor (sampleWorld sampleBorder)).1 = false
    ∧ (Convert Rule.new sampleThrowingExtractor (sampleWorld sampleBorder)).2.temporaries
        = [PadLabelmap sampleBorder]
    ∧ (Convert Rule.new sampleThrowingDecimator (sampleWorld sampleBorder)).1 = false
    ∧ (Convert Rule.new sampleThrowingDecimator (sampleWorld sampleBorder)).2.temporaries
        = [PadLabelmap sampleBorder]
    ∧ (Convert Rule.new sampleCollaborators (sampleWorld sampleBorder)).1 = true
    ∧ (Convert Rule.new sampleCollaborators (sampleWorld sampleBorder)).2.temporaries = [] := by
  refine ⟨?_, ?_, ?_, ?_, ?_, ?_, ?_, ?_, ?_, ?_⟩ <;> with_unfolding_all decide

/-- C7, failing input: `Convert` on the 32768x32768x3 `unsigned char` volume with
a foreground voxel on the face `k = dim2 - 1` runs no pad filter and hands the
extractor the unpadded volume, whose boundary shell is not all background; and
on the padded 1x1x(2^30-2) column `IsLabelmapPaddingNecessary` returns true. -/
theorem Convert_overflow_extractor_gets_border_foreground (self : Rule)
    (vtk : Collaborators) :
    sampleHuge.SupportedScalarType
    ∧ (∀ input e, FilterRun.constantPad input e
        ∉ runsOfCall (sampleWorld sampleHuge) (Convert self vtk (sampleWorld sampleHuge)).2)
    ∧ FilterRun.marchingCubes marchingCubesSettings
          sampleHuge.ShallowCopy.SetGeometryFromIdentityMatrix
        ∈ runsOfCall (sampleWorld sampleHuge) (Convert self vtk (sampleWorld sampleHuge)).2
    ∧ ¬ sampleHuge.ShallowCopy.SetGeometryFromIdentityMatrix.BorderIsBackground
    ∧ (IsLabelmapPaddingNecessary (some (PadLabelmap sampleColumn))).1 = true := by
  have hscan : (IsLabelmapPaddingNecessary (some sampleHuge)).1 = false := by
    rw [IsLabelmapPaddingNecessary_supported sampleHuge (by decide)]
    exact scanBorder_sampleHuge
  have hrun := convertLabelmap_extractor_run self vtk (sampleWorld sampleHuge) sampleHuge
  rw [hscan] at hrun
  simp only [Bool.false_eq_true, if_false, true_implies] at hrun
  rw [Convert_of_labelmap self vtk (sampleWorld sampleHuge) sampleHuge samplePriorMesh rfl rfl]
  refine ⟨by decide, hrun.2, hrun.1, ?_, ?_⟩
  · intro hb
    have h0 : sampleHuge.voxel 0 0 2 = 0 := hb 0 0 2 (by decide) (by decide)
    rw [voxel_sampleHuge] at h0
    exact absurd h0 (by decide)
  · rw [IsLabelmapPaddingNecessary_supported (PadLabelmap sampleColumn) (by decide)]
    exact scanBorder_PadLabelmap_sampleColumn

/-- C8: for two source volumes with the same voxels, extent and scalar encoding,
the image-to-world matrix of the second being `T` composed with that of the
first, and the same rule parameters and collaborators, `Convert` succeeds on
one iff it succeeds on the other, and on success the two output meshes have
the same faces and each vertex of the second is `T` applied to the
corresponding vertex of the first. -/
theorem Convert_frame_correctness (self : Rule) (vtk : Collaborators) (w1 w2 : World)
    (img1 img2 : vtkOrientedImageData) (t1 t2 : vtkPolyData) (T : vtkMatrix4x4)
    (hs1 : w1.source = some (.orientedImageData img1)) (ht1 : w1.target = some (.polyData t1))
    (hs2 : w2.source = some (.orientedImageData img2)) (ht2 : w2.target = some (.polyData t2))
    (hty : img2.ScalarType = img1.ScalarType) (hext : img2.Extent = img1.Extent)
    (hsc : img2.Scalars = img1.Scalars)
    (hM : img2.GetImageToWorldMatrix = T.Multiply4x4 img1.GetImageToWorldMatrix) :
    ((Convert self vtk w1).1 = true ↔ (Convert self vtk w2).1 = true)
    ∧ ((Convert self vtk w1).1 = true →
        ∃ m1 m2, (Convert self vtk w1).2.target = some (.polyData m1)
          ∧ (Convert self vtk w2).2.target = some (.polyData m2)
          ∧ m2.Polys = m1.Polys ∧ m2.Points = m1.Points.map T.TransformPoint) := by
  rw [Convert_of_labelmap self vtk w1 img1 t1 hs1 ht1,
    Convert_of_labelmap self vtk w2 img2 t2 hs2 ht2]
  refine ⟨⟨fun h1 => (convertLabelmap_frame self vtk w1 w2 img1 img2 T hty hext hsc hM h1).1,
    fun h2 => ?_⟩,
    fun h1 => (convertLabelmap_frame self vtk w1 w2 img1 img2 T hty hext hsc hM h1).2⟩
  obtain ⟨extracted, surface, hout, hn, hsurf, _⟩ := convertLabelmap_true self vtk w2 img2 h2
  rw [IsLabelmapPaddingNecessary_congr img1 img2 hty hext hsc,
    extractorInput_congr img1 img2 _ hty hext hsc] at hout
  exact (convertLabelmap_of_surface self vtk w1 img1 extracted surface hout hn hsurf).1

/-- Witness of C8: the sample volume and the same voxels placed with origin
(10,0,0) and spacing 2, related by translation (10,0,0) and uniform scale 2. -/
theorem Convert_frame_correctness_witness :
    sampleBorderMoved.GetImageToWorldMatrix
      = sampleScaleTranslate.Multiply4x4 sampleBorder.GetImageToWorldMatrix
    ∧ (Convert Rule.new sampleCollaborators (sampleWorld sampleBorder)).1 = true
    ∧ ∃ m1 m2,
        (Convert Rule.new sampleCollaborators (sampleWorld sampleBorder)).2.target
          = some (.polyData m1)
        ∧ (Convert Rule.new sampleCollaborators (sampleWorld sampleBorderMoved)).2.target
          = some (.polyData m2)
        ∧ m2.Polys = m1.Polys
        ∧ m2.Points = m1.Points.map sampleScaleTranslate.TransformPoint :=
  ⟨by with_unfolding_all decide, by with_unfolding_all decide,
    (Convert_frame_correctness Rule.new sampleCollaborators (sampleWorld sampleBorder)
      (sampleWorld sampleBorderMoved) sampleBorder sampleBorderMoved samplePriorMesh
      samplePriorMesh sampleScaleTranslate rfl rfl rfl rfl rfl rfl rfl
      (by with_unfolding_all decide)).2 (by with_unfolding_all decide)⟩

/-- C9: every world transform `Convert` runs uses the image-to-world matrix the
source volume had at the start of the call, with or without padding; a
successful call ran it and stored its output; and `PadLabelmap` leaves origin,
spacing and directions, hence the image-to-world matrix, unchanged. -/
theorem Convert_transform_is_source_image_to_world (self : Rule) (vtk : Collaborators)
    (w : World) (img : vtkOrientedImageData) (t : vtkPolyData)
    (hs : w.source = some (.orientedImageData img)) (ht : w.target = some (.polyData t)) :
    (∀ matrix surface, FilterRun.transformPolyData matrix surface
        ∈ runsOfCall w (Convert self vtk w).2 → matrix = img.GetImageToWorldMatrix)
    ∧ ((Convert self vtk w).1 = true →
        ∃ surface, FilterRun.transformPolyData img.GetImageToWorldMatrix surface
            ∈ runsOfCall w (Convert self vtk w).2
          ∧ (Convert self vtk w).2.target
            = some (.polyData (transformPolyData img.GetImageToWorldMatrix surface)))
    ∧ (∀ v : vtkOrientedImageData,
        (PadLabelmap v).Origin = v.Origin ∧ (PadLabelmap v).Spacing = v.Spacing
        ∧ (PadLabelmap v).Directions = v.Directions
        ∧ (PadLabelmap v).GetImageToWorldMatrix = v.GetImageToWorldMatrix) := by
  refine ⟨?_, ?_, fun v => ⟨rfl, rfl, rfl, rfl⟩⟩
  all_goals
    rw [Convert_of_labelmap self vtk w img t hs ht]
    unfold convertLabelmap
    simp only [GetImageToWorldMatrix_padded_if_necessary]
    rcases IsLabelmapPaddingNecessary (some img) with ⟨p, errs⟩
    cases p <;> simp only [Bool.false_eq_true, if_false, if_true] <;>
      (split <;> [skip; (split <;> [skip; (split <;> [split; skip])])]) <;>
      simp [reportError, recordRun, transformAndStore, runsOfCall, padRun]

/-- Witness of C9 on the 2x2x1 volume placed with origin (10,0,0) and spacing 2,
which is padded. -/
theorem Convert_transform_is_source_image_to_world_witness :
    (IsLabelmapPaddingNecessary (some sampleBorderMoved)).1 = true
    ∧ ∀ matrix surface, FilterRun.transformPolyData matrix surface
        ∈ runsOfCall (sampleWorld sampleBorderMoved)
            (Convert Rule.new sampleCollaborators (sampleWorld sampleBorderMoved)).2 →
          matrix = sampleBorderMoved.GetImageToWorldMatrix :=
  ⟨by decide,
    (Convert_transform_is_source_image_to_world Rule.new sampleCollaborators
      (sampleWorld sampleBorderMoved) sampleBorderMoved samplePriorMesh rfl rfl).1⟩

/-- C10: whenever `Convert` returns true the target holds the world-space mesh:
the surface is the extraction output, or the decimation output when the
decimation factor is positive; the faces of the target are those of the
surface and its vertices are the vertices of the surface mapped through the
image-to-world matrix of the source; and the same call on any other prior
target mesh returns true and leaves the same target. -/
theorem Convert_true_overwrites_target (self : Rule) (vtk : Collaborators) (w : World)
    (img : vtkOrientedImageData) (t : vtkPolyData)
    (hs : w.source = some (.orientedImageData img)) (ht : w.target = some (.polyData t))
    (hret : (Convert self vtk w).1 = true) :
    ∃ extracted surface,
      vtk.marchingCubes marchingCubesSettings
          (if (IsLabelmapPaddingNecessary (some img)).1 = true then PadLabelmap img.DeepCopy
            else img).ShallowCopy.SetGeometryFromIdentityMatrix = .output extracted
      ∧ ((0 < vtk.DeserializeFloatingPointConversionParameter
              (self.parameterValue GetDecimationFactorParameterName)
            ∧ vtk.decimatePro (decimateProSettings
                (vtk.DeserializeFloatingPointConversionParameter
                  (self.parameterValue GetDecimationFactorParameterName))) extracted
              = .output surface)
          ∨ (¬ 0 < vtk.DeserializeFloatingPointConversionParameter
                (self.parameterValue GetDecimationFactorParameterName)
            ∧ surface = extracted))
      ∧ (Convert self vtk w).2.target
          = some (.polyData
              { Points := surface.Points.map img.GetImageToWorldMatrix.TransformPoint
                Polys := surface.Polys })
      ∧ ∀ t' : vtkPolyData,
          (Convert self vtk { w with target := some (.polyData t') }).1 = true
          ∧ (Convert self vtk { w with target := some (.polyData t') }).2.target
              = (Convert self vtk w).2.target := by
  rw [Convert_of_labelmap self vtk w img t hs ht] at hret ⊢
  obtain ⟨extracted, surface, hout, hn, hsurf, htgt⟩ := convertLabelmap_true self vtk w img hret
  refine ⟨extracted, surface, hout, hsurf, htgt, fun t' => ?_⟩
  rw [Convert_of_labelmap self vtk { w with target := some (.polyData t') } img t' hs rfl, htgt]
  exact convertLabelmap_of_surface self vtk _ img extracted surface hout hn hsurf

/-- Witness of C10 on the 2x2x1 volume with a border voxel set. -/
theorem Convert_true_overwrites_target_witness :
    (Convert Rule.new sampleCollaborators (sampleWorld sampleBorder)).1 = true
    ∧ ∃ extracted surface,
      sampleCollaborators.marchingCubes marchingCubesSettings
          (if (IsLabelmapPaddingNecessary (some sampleBorder)).1 = true then
            PadLabelmap sampleBorder.DeepCopy
            else sampleBorder).ShallowCopy.SetGeometryFromIdentityMatrix = .output extracted
      ∧ ((0 < sampleCollaborators.DeserializeFloatingPointConversionParameter
              (Rule.new.parameterValue GetDecimationFactorParameterName)
            ∧ sampleCollaborators.decimatePro (decimateProSettings
                (sampleCollaborators.DeserializeFloatingPointConversionParameter
                  (Rule.new.parameterValue GetDecimationFactorParameterName))) extracted
              = .output surface)
          ∨ (¬ 0 < sampleCollaborators.DeserializeFloatingPointConversionParameter
                (Rule.new.parameterValue GetDecimationFactorParameterName)
            ∧ surface = extracted))
      ∧ (Convert Rule.new sampleCollaborators (sampleWorld sampleBorder)).2.target
          = some (.polyData
              { Points := surface.Points.map sampleBorder.GetImageToWorldMatrix.TransformPoint
                Polys := surface.Polys })
      ∧ ∀ t' : vtkPolyData,
          (Convert Rule.new sampleCollaborators
            { sampleWorld sampleBorder with target := some (.polyData t') }).1 = true
          ∧ (Convert Rule.new sampleCollaborators
              { sampleWorld sampleBorder with target := some (.polyData t') }).2.target
              = (Convert Rule.new sampleCollaborators (sampleWorld sampleBorder)).2.target :=
  ⟨by with_unfolding_all decide,
    Convert_true_overwrites_target Rule.new sampleCollaborators (sampleWorld sampleBorder)
      sampleBorder samplePriorMesh rfl rfl (by with_unfolding_all decide)⟩

/-- C11: if the extraction throws, or yields a mesh with zero faces, `Convert`
returns false, the target keeps its prior contents, and neither the decimator
nor the world transform is run; this holds for every rule parameter value and
decimation factor. -/
theorem Convert_extraction_failure (self : Rule) (vtk : Collaborators) (w : World)
    (img : vtkOrientedImageData) (t : vtkPolyData)
    (hs : w.source = some (.orientedImageData img)) (ht : w.target = some (.polyData t))
    (h : vtk.marchingCubes marchingCubesSettings
          (if (IsLabelmapPaddingNecessary (some img)).1 = true then PadLabelmap img.DeepCopy
            else img).ShallowCopy.SetGeometryFromIdentityMatrix = .threw
        ∨ ∃ m, vtk.marchingCubes marchingCubesSettings
            (if (IsLabelmapPaddingNecessary (some img)).1 = true then PadLabelmap img.DeepCopy
              else img).ShallowCopy.SetGeometryFromIdentityMatrix = .output m
          ∧ m.GetNumberOfPolys = 0) :
    (Convert self vtk w).1 = false
    ∧ (Convert self vtk w).2.target = w.target
    ∧ (∀ settings input, FilterRun.decimatePro settings input
        ∉ runsOfCall w (Convert self vtk w).2)
    ∧ (∀ matrix surface, FilterRun.transformPolyData matrix surface
        ∉ runsOfCall w (Convert self vtk w).2) := by
  rw [Convert_of_labelmap self vtk w img t hs ht]
  unfold convertLabelmap
  simp only []
  rcases h with hmc | ⟨m, hmc, hn⟩
  · rw [hmc]
    rcases IsLabelmapPaddingNecessary (some img) with ⟨p, errs⟩
    cases p <;> simp [reportError, recordRun, runsOfCall, padRun]
  · rw [hmc]
    rcases IsLabelmapPaddingNecessary (some img) with ⟨p, errs⟩
    cases p <;> simp [hn, reportError, recordRun, runsOfCall, padRun]

/-- Witness of C11: an all-background volume, whose extraction has zero faces,
converted by a rule with decimation factor 1/2. -/
theorem Convert_extraction_failure_witness :
    (Convert sampleDecimatingRule sampleCollaborators (sampleWorld sampleBackground)).1 = false
    ∧ (Convert sampleDecimatingRule sampleCollaborators (sampleWorld sampleBackground)).2.target
        = (sampleWorld sampleBackground).target
    ∧ (∀ settings input, FilterRun.decimatePro settings input
        ∉ runsOfCall (sampleWorld sampleBackground)
            (Convert sampleDecimatingRule sampleCollaborators (sampleWorld sampleBackground)).2)
    ∧ (∀ matrix surface, FilterRun.transformPolyData matrix surface
        ∉ runsOfCall (sampleWorld sampleBackground)
            (Convert sampleDecimatingRule sampleCollaborators (sampleWorld sampleBackground)).2) :=
  Convert_extraction_failure sampleDecimatingRule sampleCollaborators
    (sampleWorld sampleBackground) sampleBackground samplePriorMesh rfl rfl
    (Or.inr ⟨⟨[], []⟩, by decide, rfl⟩)

/-- C12: for every decimation factor that is not positive `Convert` never runs the
decimator, every world transform it runs takes the extraction output itself, and
on success the target has exactly the faces of the extraction output, so the
same number of them; the freshly constructed rule holds the value "0.0". -/
theorem Convert_nonpositive_factor_skips_decimator (self : Rule) (vtk : Collaborators)
    (w : World) (img : vtkOrientedImageData) (t : vtkPolyData)
    (hs : w.source = some (.orientedImageData img)) (ht : w.target = some (.polyData t))
    (hf : vtk.DeserializeFloatingPointConversionParameter
        (self.parameterValue GetDecimationFactorParameterName) ≤ 0) :
    (∀ settings input, FilterRun.decimatePro settings input
        ∉ runsOfCall w (Convert self vtk w).2)
    ∧ (∀ matrix surface, FilterRun.transformPolyData matrix surface
          ∈ runsOfCall w (Convert self vtk w).2 →
        vtk.marchingCubes marchingCubesSettings
          (if (IsLabelmapPaddingNecessary (some img)).1 = true then PadLabelmap img.DeepCopy
            else img).ShallowCopy.SetGeometryFromIdentityMatrix = .output surface)
    ∧ ((Convert self vtk w).1 = true →
        ∃ extracted mesh,
          vtk.marchingCubes marchingCubesSettings
            (if (IsLabelmapPaddingNecessary (some img)).1 = true then PadLabelmap img.DeepCopy
              else img).ShallowCopy.SetGeometryFromIdentityMatrix = .output extracted
          ∧ (Convert self vtk w).2.target = some (.polyData mesh)
          ∧ mesh.Polys = extracted.Polys
          ∧ mesh.GetNumberOfPolys = extracted.GetNumberOfPolys)
    ∧ Rule.new.parameterValue GetDecimationFactorParameterName = "0.0" := by
  have hnf : ¬ 0 < vtk.DeserializeFloatingPointConversionParameter
      (self.parameterValue GetDecimationFactorParameterName) := not_lt.mpr hf
  refine ⟨?_, ?_, ?_, by decide⟩
  · rw [Convert_of_labelmap self vtk w img t hs ht]
    unfold convertLabelmap
    simp only []
    rcases IsLabelmapPaddingNecessary (some img) with ⟨p, errs⟩
    cases p <;> simp only [Bool.false_eq_true, if_false, if_true] <;>
      (split <;> [skip; (split <;> [skip; skip])]) <;>
      simp [hnf, reportError, recordRun, transformAndStore, runsOfCall, padRun]
  · rw [Convert_of_labelmap self vtk w img t hs ht]
    unfold convertLabelmap
    simp only []
    rcases IsLabelmapPaddingNecessary (some img) with ⟨p, errs⟩
    cases p <;> simp only [Bool.false_eq_true, if_false, if_true] <;>
      (split <;> [skip; (split <;> [skip; skip])]) <;>
      simp [hnf, reportError, recordRun, transformAndStore, runsOfCall, padRun] <;>
      assumption
  · intro hret
    rw [Convert_of_labelmap self vtk w img t hs ht] at hret ⊢
    obtain ⟨extracted, surface, hout, _, hsurf, htgt⟩ :=
      convertLabelmap_true self vtk w img hret
    rcases hsurf with ⟨hpos, _⟩ | ⟨_, rfl⟩
    · exact absurd hpos hnf
    · exact ⟨surface, _, hout, htgt, rfl, rfl⟩

/-- Witness of C12: the freshly constructed rule, whose "0.0" the sample parser
reads as 0. -/
theorem Convert_nonpositive_factor_skips_decimator_witness :
    sampleCollaborators.DeserializeFloatingPointConversionParameter
        (Rule.new.parameterValue GetDecimationFactorParameterName) ≤ 0
    ∧ (Convert Rule.new sampleCollaborators (sampleWorld sampleBorder)).1 = true
    ∧ ∀ settings input, FilterRun.decimatePro settings input
        ∉ runsOfCall (sampleWorld sampleBorder)
            (Convert Rule.new sampleCollaborators (sampleWorld sampleBorder)).2 :=
  ⟨by with_unfolding_all decide, by with_unfolding_all decide,
    (Convert_nonpositive_factor_skips_decimator Rule.new sampleCollaborators
      (sampleWorld sampleBorder) sampleBorder samplePriorMesh rfl rfl
      (by with_unfolding_all decide)).1⟩

/-- C13: when the decimation factor is positive and the decimator, run on the
non-empty extraction output, throws, `Convert` reports the decimation error and
returns false; it runs no world transform, so it does not fall back to the
undecimated mesh, and the target keeps its prior contents. -/
theorem Convert_decimation_throws (self : Rule) (vtk : Collaborators) (w : World)
    (img : vtkOrientedImageData) (t extracted : vtkPolyData)
    (hs : w.source = some (.orientedImageData img)) (ht : w.target = some (.polyData t))
    (hmc : vtk.marchingCubes marchingCubesSettings
          (if (IsLabelmapPaddingNecessary (some img)).1 = true then PadLabelmap img.DeepCopy
            else img).ShallowCopy.SetGeometryFromIdentityMatrix = .output extracted)
    (hn : extracted.GetNumberOfPolys ≠ 0)
    (hf : 0 < vtk.DeserializeFloatingPointConversionParameter
        (self.parameterValue GetDecimationFactorParameterName))
    (hd : vtk.decimatePro (decimateProSettings
          (vtk.DeserializeFloatingPointConversionParameter
            (self.parameterValue GetDecimationFactorParameterName))) extracted = .threw) :
    (Convert self vtk w).1 = false
    ∧ (Convert self vtk w).2.target = w.target
    ∧ (∀ matrix surface, FilterRun.transformPolyData matrix surface
        ∉ runsOfCall w (Convert self vtk w).2)
    ∧ (Convert self vtk w).2.errors
        = w.errors ++ (IsLabelmapPaddingNecessary (some img)).2 ++ ["Error decimating model"] := by
  rw [Convert_of_labelmap self vtk w img t hs ht]
  unfold convertLabelmap
  simp only []
  rw [hmc]
  simp only [hn, hf, hd, if_false, if_true, gt_iff_lt]
  rcases IsLabelmapPaddingNecessary (some img) with ⟨p, errs⟩
  cases p <;> simp [reportError, recordRun, runsOfCall, padRun]

/-- Witness of C13: the padded sample volume with a decimator that throws and the
decimation factor 1/2. -/
theorem Convert_decimation_throws_witness :
    0 < sampleThrowingDecimator.DeserializeFloatingPointConversionParameter
        (Rule.new.parameterValue GetDecimationFactorParameterName)
    ∧ (Convert Rule.new sampleThrowingDecimator (sampleWorld sampleBorder)).1 = false
    ∧ (Convert Rule.new sampleThrowingDecimator (sampleWorld sampleBorder)).2.target
        = (sampleWorld sampleBorder).target :=
  ⟨by with_unfolding_all decide,
    (Convert_decimation_throws Rule.new sampleThrowingDecimator (sampleWorld sampleBorder)
      sampleBorder samplePriorMesh sampleTetrahedron rfl rfl (by with_unfolding_all decide)
      (by decide) (by with_unfolding_all decide) rfl).1,
    (Convert_decimation_throws Rule.new sampleThrowingDecimator (sampleWorld sampleBorder)
      sampleBorder samplePriorMesh sampleTetrahedron rfl rfl (by with_unfolding_all decide)
      (by decide) (by with_unfolding_all decide) rfl).2.1⟩

/-- C14: for every outcome of `Convert` the source object after the call is the
source object before it, so its image-to-world transform, index extent and
voxel values are unchanged. -/
theorem Convert_source_unchanged (self : Rule) (vtk : Collaborators) (w : World) :
    (Convert self vtk w).2.source = w.source
    ∧ ∀ before after : vtkOrientedImageData,
        w.source = some (.orientedImageData before) →
        (Convert self vtk w).2.source = some (.orientedImageData after) →
          after.GetImageToWorldMatrix = before.GetImageToWorldMatrix
          ∧ after.Extent = before.Extent ∧ after.Scalars = before.Scalars := by
  have h : (Convert self vtk w).2.source = w.source := by
    unfold Convert
    split
    · split
      · exact convertLabelmap_source self vtk w _
      · rfl
    · rfl
  refine ⟨h, fun before after hb ha => ?_⟩
  rw [h, hb] at ha
  cases ha
  exact ⟨rfl, rfl, rfl⟩

/-- C15: with distinct source and target representation names,
`ConstructRepresentationObjectByRepresentation` returns a new empty oriented
image exactly for the source name, a new empty mesh exactly for the target
name, and null exactly for every other string;
`ConstructRepresentationObjectByClass` does the same for exactly
"vtkOrientedImageData" and "vtkPolyData", the match being case-sensitive. -/
theorem ConstructRepresentationObject_by_name (sourceName targetName name : String)
    (hne : sourceName ≠ targetName) :
    (ConstructRepresentationObjectByRepresentation sourceName targetName name
        = some (.orientedImageData vtkOrientedImageData.New) ↔ name = sourceName)
    ∧ (ConstructRepresentationObjectByRepresentation sourceName targetName name
        = some (.polyData vtkPolyData.New) ↔ name = targetName)
    ∧ (ConstructRepresentationObjectByRepresentation sourceName targetName name = none
        ↔ name ≠ sourceName ∧ name ≠ targetName)
    ∧ (ConstructRepresentationObjectByClass name
        = some (.orientedImageData vtkOrientedImageData.New) ↔ name = "vtkOrientedImageData")
    ∧ (ConstructRepresentationObjectByClass name
        = some (.polyData vtkPolyData.New) ↔ name = "vtkPolyData")
    ∧ (ConstructRepresentationObjectByClass name = none
        ↔ name ≠ "vtkOrientedImageData" ∧ name ≠ "vtkPolyData")
    ∧ ConstructRepresentationObjectByClass "vtkpolydata" = none
    ∧ vtkOrientedImageData.New.Scalars = [] ∧ vtkPolyData.New.GetNumberOfPolys = 0 := by
  unfold ConstructRepresentationObjectByRepresentation ConstructRepresentationObjectByClass
  refine ⟨?_, ?_, ?_, ?_, ?_, ?_, by decide, rfl, rfl⟩
  · by_cases h1 : name = sourceName
    · simp [h1]
    · by_cases h2 : name = targetName <;> simp [h1, h2, hne, Ne.symm hne]
  · by_cases h1 : name = sourceName
    · subst h1
      simp [hne]
    · by_cases h2 : name = targetName <;> simp [h1, h2, hne, Ne.symm hne]
  · by_cases h1 : name = sourceName
    · simp [h1]
    · by_cases h2 : name = targetName <;> simp [h1, h2, hne, Ne.symm hne]
  · by_cases h1 : name = "vtkOrientedImageData"
    · simp [h1]
    · by_cases h2 : name = "vtkPolyData" <;> simp [h1, h2]
  · by_cases h1 : name = "vtkOrientedImageData"
    · subst h1
      simp
    · by_cases h2 : name = "vtkPolyData" <;> simp [h1, h2]
  · by_cases h1 : name = "vtkOrientedImageData"
    · simp [h1]
    · by_cases h2 : name = "vtkPolyData" <;> simp [h1, h2]

/-- Witness of C15 with the names "Binary labelmap" and "Closed surface". -/
theorem ConstructRepresentationObject_by_name_witness :
    "Binary labelmap" ≠ "Closed surface"
    ∧ (ConstructRepresentationObjectByRepresentation "Binary labelmap" "Closed surface"
          "Closed surface" = some (.polyData vtkPolyData.New)
        ↔ "Closed surface" = "Closed surface") :=
  ⟨by decide,
    (ConstructRepresentationObject_by_name "Binary labelmap" "Closed surface" "Closed surface"
      (by decide)).2.1⟩

/-- C16: `GetConversionCost` returns 500 for every pair of arguments, null
included. -/
theorem GetConversionCost_fixed (sourceRepresentation targetRepresentation :
    Option vtkDataObject) :
    GetConversionCost sourceRepresentation targetRepresentation = 500
    ∧ GetConversionCost none none = 500 :=
  ⟨rfl, rfl⟩

/-- C18, failing input: the two 3x3x2^30 `unsigned char` volumes, one all
background and one with the interior voxel (1,1,1) set, have the same encoding
and dimensions and agree on every voxel of the six faces, yet
`IsLabelmapPaddingNecessary` returns false on the first and true on the
second: the wrapped offset of the face index (0,1,954437178) is 13, the offset
of the interior voxel. -/
theorem IsLabelmapPaddingNecessary_overflow_reads_interior :
    sampleLongBackground.SupportedScalarType
    ∧ sampleLongInterior.ScalarType = sampleLongBackground.ScalarType
    ∧ sampleLongInterior.GetDimensions = sampleLongBackground.GetDimensions
    ∧ (∀ i j k : Int, sampleLongBackground.IsVoxel i j k → sampleLongBackground.OnFace i j k →
        sampleLongInterior.voxel i j k = sampleLongBackground.voxel i j k)
    ∧ voxelOffset 3 3 0 1 954437178 = 1 + 1 * 3 + 1 * 3 * 3
    ∧ IsLabelmapPaddingNecessary (some sampleLongBackground) = (false, [])
    ∧ IsLabelmapPaddingNecessary (some sampleLongInterior) = (true, []) := by
  refine ⟨by decide, rfl, by decide, ?_, by decide, ?_, ?_⟩
  · intro i j k hv hface
    rw [voxel_sampleLongBackground]
    exact voxel_sampleLongInterior_face i j k hv hface
  · rw [IsLabelmapPaddingNecessary_of_supported sampleLongBackground (by decide),
      scanBorder_sampleLongBackground]
  · rw [IsLabelmapPaddingNecessary_of_supported sampleLongInterior (by decide),
      scanBorder_sampleLongInterior]

/-- C19: for dimensions whose product fits a C `int` and loop indices within
them, none of the `int` products of the voxel offset overflows, the offset is
`i + j*d0 + k*d0*d1`, fits an `int` and lies in `[0, d0*d1*d2)`, distinct index
triples give distinct offsets, and in a buffer of `d0*d1*d2` scalars the read
returns the element at the offset, never the out-of-range default. -/
theorem voxelOffset_in_bounds (d0 d1 d2 i j k : Int)
    (hi0 : 0 ≤ i) (hi : i < d0) (hj0 : 0 ≤ j) (hj : j < d1) (hk0 : 0 ≤ k) (hk : k < d2)
    (hfit : d0 * d1 * d2 ≤ INT_MAX) :
    (wrapInt32 (j * d0) = j * d0 ∧ wrapInt32 (k * d0) = k * d0
      ∧ wrapInt32 (wrapInt32 (k * d0) * d1) = k * d0 * d1)
    ∧ voxelOffset d0 d1 i j k = i + j * d0 + k * d0 * d1
    ∧ 0 ≤ voxelOffset d0 d1 i j k
    ∧ voxelOffset d0 d1 i j k < d0 * d1 * d2
    ∧ voxelOffset d0 d1 i j k ≤ INT_MAX
    ∧ (∀ i' j' k' : Int, 0 ≤ i' → i' < d0 → 0 ≤ j' → j' < d1 → 0 ≤ k' → k' < d2 →
        voxelOffset d0 d1 i' j' k' = voxelOffset d0 d1 i j k → i' = i ∧ j' = j ∧ k' = k)
    ∧ (∀ buf : List Int, (buf.length : Int) = d0 * d1 * d2 →
        buf[(voxelOffset d0 d1 i j k).toNat]? = some (readScalar buf (voxelOffset d0 d1 i j k))) := by
  have hoff := voxelOffset_of_fits d0 d1 d2 i j k hi0 hi hj0 hj hk0 hk hfit
  obtain ⟨hlo, hhi⟩ := exact_offset_bounds d0 d1 d2 i j k hi0 hi hj0 hj hk0 hk
  have hjd : wrapInt32 (j * d0) = j * d0 := by
    have h := voxelOffset_of_fits d0 d1 d2 0 j 0 (by omega) (by omega) hj0 hj (by omega)
      (by omega) hfit
    simpa [voxelOffset, wrapInt32] using h
  have hkd : wrapInt32 (k * d0) = k * d0 := by
    have hd1 : (0 : Int) < d1 := by omega
    have h := voxelOffset_of_fits d0 d2 d1 0 k 0 (by omega) (by omega) hk0 hk (by omega)
      hd1 (by rw [mul_assoc, mul_comm d2 d1, ← mul_assoc]; exact hfit)
    simpa [voxelOffset, wrapInt32] using h
  have hkdd : wrapInt32 (wrapInt32 (k * d0) * d1) = k * d0 * d1 := by
    have h := voxelOffset_of_fits d0 d1 d2 0 0 k (by omega) (by omega) (by omega) (by omega)
      hk0 hk hfit
    simpa [voxelOffset, wrapInt32] using h
  refine ⟨⟨hjd, hkd, hkdd⟩, hoff, by rw [hoff]; exact hlo, by rw [hoff]; exact hhi,
    by rw [hoff]; omega, ?_, ?_⟩
  · intro i' j' k' hi0' hi' hj0' hj' hk0' hk' h
    rw [hoff, voxelOffset_of_fits d0 d1 d2 i' j' k' hi0' hi' hj0' hj' hk0' hk' hfit] at h
    exact exact_offset_injective d0 d1 i j k i' j' k' hi0 hi hj0 hj hk0 hi0' hi' hj0' hj' hk0' h
  · intro buf hlen
    rw [hoff]
    have hlt : (i + j * d0 + k * d0 * d1).toNat < buf.length := by omega
    unfold readScalar
    rw [if_neg (by omega), List.getD_eq_getElem?_getD, List.getElem?_eq_getElem hlt]
    rfl

/-- Witness of C19 for a 3x4x5 volume at index (2,3,4), whose offset is 59. -/
theorem voxelOffset_in_bounds_witness :
    (3 : Int) * 4 * 5 ≤ INT_MAX
    ∧ voxelOffset 3 4 2 3 4 = 2 + 3 * 3 + 4 * 3 * 4
    ∧ voxelOffset 3 4 2 3 4 < 3 * 4 * 5 :=
  ⟨by decide,
    (voxelOffset_in_bounds 3 4 5 2 3 4 (by decide) (by decide) (by decide) (by decide)
      (by decide) (by decide) (by decide)).2.1,
    (voxelOffset_in_bounds 3 4 5 2 3 4 (by decide) (by decide) (by decide) (by decide)
      (by decide) (by decide) (by decide)).2.2.2.1⟩

/-- C21: on every path on which `Convert` returns false the target after the call
is the target before it and no world transform was run; such a path is a type
mismatch of source or target, an extraction that throws or yields zero faces,
or a decimation that throws under a positive factor. So the target is written
only by a call that returns true. -/
theorem Convert_atomic_on_target (self : Rule) (vtk : Collaborators) (w : World)
    (h : (Convert self vtk w).1 = false) :
    (Convert self vtk w).2.target = w.target
    ∧ (∀ matrix surface, FilterRun.transformPolyData matrix surface
        ∉ runsOfCall w (Convert self vtk w).2)
    ∧ ((∀ img, w.source ≠ some (.orientedImageData img))
      ∨ (∀ mesh, w.target ≠ some (.polyData mesh))
      ∨ ∃ img, w.source = some (.orientedImageData img)
        ∧ (vtk.marchingCubes marchingCubesSettings
              (if (IsLabelmapPaddingNecessary (some img)).1 = true then PadLabelmap img.DeepCopy
                else img).ShallowCopy.SetGeometryFromIdentityMatrix = .threw
          ∨ ∃ m, vtk.marchingCubes marchingCubesSettings
                (if (IsLabelmapPaddingNecessary (some img)).1 = true then
                  PadLabelmap img.DeepCopy
                  else img).ShallowCopy.SetGeometryFromIdentityMatrix = .output m
              ∧ (m.GetNumberOfPolys = 0
                ∨ (0 < vtk.DeserializeFloatingPointConversionParameter
                        (self.parameterValue GetDecimationFactorParameterName)
                    ∧ vtk.decimatePro (decimateProSettings
                        (vtk.DeserializeFloatingPointConversionParameter
                          (self.parameterValue GetDecimationFactorParameterName))) m
                      = .threw)))) := by
  refine ⟨Convert_false_target self vtk w h, ?_⟩
  revert h
  unfold Convert
  split
  · rename_i img hsrc
    split
    · intro h
      obtain ⟨hrun, hcase⟩ := convertLabelmap_false_cases self vtk w img h
      exact ⟨hrun, Or.inr (Or.inr ⟨img, hsrc, hcase⟩)⟩
    · rename_i hnot
      intro _
      refine ⟨by simp [reportError, runsOfCall], Or.inr (Or.inl ?_)⟩
      intro mesh hm
      exact hnot mesh hm
  · rename_i hnot
    intro _
    refine ⟨by simp [reportError, runsOfCall], Or.inl ?_⟩
    intro img hi
    exact hnot img hi

/-- Witness of C21 on four failing calls: a source that is a mesh, an
all-background volume, an extractor that throws and a decimator that throws. -/
theorem Convert_atomic_on_target_witness :
    (Convert Rule.new sampleCollaborators sampleWrongSourceWorld).1 = false
    ∧ (Convert Rule.new sampleCollaborators sampleWrongSourceWorld).2.target
        = sampleWrongSourceWorld.target
    ∧ (Convert Rule.new sampleCollaborators (sampleWorld sampleBackground)).2.target
        = (sampleWorld sampleBackground).target
    ∧ (Convert Rule.new sampleThrowingExtractor (sampleWorld sampleBorder)).2.target
        = (sampleWorld sampleBorder).target
    ∧ (Convert Rule.new sampleThrowingDecimator (sampleWorld sampleBorder)).2.target
        = (sampleWorld sampleBorder).target :=
  ⟨by decide,
    (Convert_atomic_on_target Rule.new sampleCollaborators sampleWrongSourceWorld
      (by decide)).1,
    (Convert_atomic_on_target Rule.new sampleCollaborators (sampleWorld sampleBackground)
      (by with_unfolding_all decide)).1,
    (Convert_atomic_on_target Rule.new sampleThrowingExtractor (sampleWorld sampleBorder)
      (by with_unfolding_all decide)).1,
    (Convert_atomic_on_target Rule.new sampleThrowingDecimator (sampleWorld sampleBorder)
      (by with_unfolding_all decide)).1⟩

end SlicerRT
